import Mathlib

/-!
# MultiplayerSessionsSubsystem: the session lifecycle coordinator

A shallow embedding of `MultiplayerSessionsSubsystem.cpp`.  The subsystem object is a
record of its member variables; every member function is a function on that record.
The online session interface of the engine is the record `IOnlineSession`: what the
provider answers to the next call of each kind, its delegate lists and its handle
counter.  Every effect on the outside (a delegate added or cleared, a provider
operation called, a custom delegate broadcast) is appended to `Log`, in program order.
-/

namespace MultiplayerSessions

/-- The result codes of `EOnJoinSessionCompleteResult::Type`. -/
inductive EOnJoinSessionCompleteResult where
  | Success
  | SessionIsFull
  | SessionDoesNotExist
  | CouldNotRetrieveAddress
  | AlreadyInSession
  | UnknownError
  deriving DecidableEq, Repr

/-- One discovered session (`FOnlineSessionSearchResult`): an identity and the
match type it advertises.  The subsystem only stores and forwards these. -/
structure FOnlineSessionSearchResult where
  SessionId : Nat
  MatchType : String
  deriving DecidableEq, Repr

/-- The fields of `FOnlineSessionSettings` that `CreateSession` writes.  `Settings`
holds the keyed entries written by `Set(FName(key), value, ...)`. -/
structure FOnlineSessionSettings where
  bIsLANMatch : Bool
  NumPublicConnections : Int
  bAllowJoinInProgress : Bool
  bAllowJoinViaPresence : Bool
  bShouldAdvertise : Bool
  bUsesPresence : Bool
  bUseLobbiesIfAvailable : Bool
  Settings : List (String × String)
  BuildUniqueId : Int
  deriving DecidableEq, Repr

/-- The fields of `FOnlineSessionSearch` that `FindSessions` writes, and the
`SearchResults` array the provider fills in before it raises the completion. -/
structure FOnlineSessionSearch where
  MaxSearchResults : Int
  bIsLanQuery : Bool
  QuerySettings : List (String × Bool)
  SearchResults : List FOnlineSessionSearchResult
  deriving DecidableEq, Repr

/-- The operation kinds; each has its own delegate list at the provider, its own
stored delegate handle and its own custom (outward) delegate. -/
inductive OpKind where
  | Create
  | Find
  | Join
  | Destroy
  | Start
  deriving DecidableEq, Repr

/-- The effects the subsystem has on its surroundings. -/
inductive Effect where
  /-- The call `SessionInterface->AddOn<Kind>CompleteDelegate_Handle(...)` returned handle `h`. -/
  | Subscribe (k : OpKind) (h : Nat)
  /-- The call `SessionInterface->ClearOn<Kind>CompleteDelegate_Handle(h)`. -/
  | Unsubscribe (k : OpKind) (h : Option Nat)
  /-- The call `SessionInterface->CreateSession(id, NAME_GameSession, settings)`. -/
  | CallCreateSession (settings : FOnlineSessionSettings)
  /-- The call `SessionInterface->FindSessions(id, search)`. -/
  | CallFindSessions (search : FOnlineSessionSearch)
  /-- The call `SessionInterface->JoinSession(id, NAME_GameSession, result)`. -/
  | CallJoinSession (result : FOnlineSessionSearchResult)
  /-- The call `SessionInterface->DestroySession(NAME_GameSession)`. -/
  | CallDestroySession
  /-- The broadcast `MultiplayerOnCreateSessionComplete.Broadcast(b)`. -/
  | CreateSessionComplete (b : Bool)
  /-- The broadcast `MultiplayerOnFindSessionsComplete.Broadcast(results, b)`. -/
  | FindSessionsComplete (results : List FOnlineSessionSearchResult) (b : Bool)
  /-- The broadcast `MultiplayerOnJoinSessionComplete.Broadcast(code)`. -/
  | JoinSessionComplete (code : EOnJoinSessionCompleteResult)
  /-- The broadcast `MultiplayerOnDestroySessionComplete.Broadcast(b)`. -/
  | DestroySessionComplete (b : Bool)
  /-- The broadcast `MultiplayerOnStartSessionComplete.Broadcast(b)`; no code path emits it. -/
  | StartSessionComplete (b : Bool)
  deriving DecidableEq, Repr

/-- Modelled from the spec: the Session Provider Adapter (the engine's
`IOnlineSession`, reached through `SessionInterface`), which is not part of this
repository.  `NamedSession` says whether `GetNamedSession(NAME_GameSession)` is
non-null; the four `...Returns` fields are what the provider answers to the next call
of that kind (`true`: accepted, a completion follows later; `false`: rejected
synchronously); `Delegates` are the completion delegates now registered, by kind and
handle; `NextHandle` is the next fresh `FDelegateHandle`; `SubsystemName` is
`IOnlineSubsystem::Get()->GetSubsystemName()`. -/
structure IOnlineSession where
  SubsystemName : String
  NamedSession : Bool
  CreateSessionReturns : Bool
  FindSessionsReturns : Bool
  JoinSessionReturns : Bool
  DestroySessionReturns : Bool
  Delegates : List (OpKind × Nat)
  NextHandle : Nat
  deriving DecidableEq, Repr

/-- The member variables of `UMultiplayerSessionsSubsystem`, and the log of its
effects.  `SessionInterface` is `none` when the shared pointer is not valid. -/
structure UMultiplayerSessionsSubsystem where
  SessionInterface : Option IOnlineSession
  LastSessionSettings : Option FOnlineSessionSettings
  LastSessionSearch : Option FOnlineSessionSearch
  CreateSessionCompleteDelegateHandle : Option Nat
  FindSessionsCompleteDelegateHandle : Option Nat
  JoinSessionCompleteDelegateHandle : Option Nat
  DestroySessionCompleteDelegateHandle : Option Nat
  StartSessionCompleteDelegateHandle : Option Nat
  bCreateSessionOnDestroy : Bool
  LastNumPublicConnections : Int
  LastMatchType : String
  Log : List Effect
  deriving DecidableEq, Repr

/-- The stored delegate handle of an operation kind. -/
def DelegateHandle (k : OpKind) (s : UMultiplayerSessionsSubsystem) : Option Nat :=
  match k with
  | .Create => s.CreateSessionCompleteDelegateHandle
  | .Find => s.FindSessionsCompleteDelegateHandle
  | .Join => s.JoinSessionCompleteDelegateHandle
  | .Destroy => s.DestroySessionCompleteDelegateHandle
  | .Start => s.StartSessionCompleteDelegateHandle

/-- Assignment to the stored delegate handle of an operation kind. -/
def SetDelegateHandle (k : OpKind) (h : Option Nat)
    (s : UMultiplayerSessionsSubsystem) : UMultiplayerSessionsSubsystem :=
  match k with
  | .Create => { s with CreateSessionCompleteDelegateHandle := h }
  | .Find => { s with FindSessionsCompleteDelegateHandle := h }
  | .Join => { s with JoinSessionCompleteDelegateHandle := h }
  | .Destroy => { s with DestroySessionCompleteDelegateHandle := h }
  | .Start => { s with StartSessionCompleteDelegateHandle := h }

/-- Modelled from the spec: "subscribe a completion handle" (the engine's
`AddOn<Kind>CompleteDelegate_Handle`, not part of this repository).  The statement
`<Kind>DelegateHandle = SessionInterface->AddOn<Kind>CompleteDelegate_Handle(delegate)`:
the provider registers the delegate and returns a registration token, here a fresh
number, which the subsystem stores, overwriting the handle stored before. -/
def AddOnCompleteDelegate_Handle (k : OpKind)
    (s : UMultiplayerSessionsSubsystem) : UMultiplayerSessionsSubsystem :=
  match s.SessionInterface with
  | none => s
  | some p =>
    SetDelegateHandle k (some p.NextHandle)
      { s with
        SessionInterface := some
          { p with Delegates := p.Delegates ++ [(k, p.NextHandle)],
                   NextHandle := p.NextHandle + 1 },
        Log := s.Log ++ [Effect.Subscribe k p.NextHandle] }

/-- Modelled from the spec: "unsubscribe the handle" (the engine's
`ClearOn<Kind>CompleteDelegate_Handle`, not part of this repository).  The statement
`SessionInterface->ClearOn<Kind>CompleteDelegate_Handle(<Kind>DelegateHandle)`: the
provider drops the delegate registered under the stored handle, and the handle, passed
by reference, is reset. -/
def ClearOnCompleteDelegate_Handle (k : OpKind)
    (s : UMultiplayerSessionsSubsystem) : UMultiplayerSessionsSubsystem :=
  match s.SessionInterface with
  | none => s
  | some p =>
    SetDelegateHandle k none
      { s with
        SessionInterface := some
          { p with Delegates :=
              p.Delegates.filter (fun d => !(decide (d.1 = k) && decide (some d.2 = DelegateHandle k s))) },
        Log := s.Log ++ [Effect.Unsubscribe k (DelegateHandle k s)] }

/-- A provider operation is called, or a custom delegate is broadcast. -/
def Emit (e : Effect) (s : UMultiplayerSessionsSubsystem) : UMultiplayerSessionsSubsystem :=
  { s with Log := s.Log ++ [e] }

/-- The member function `UMultiplayerSessionsSubsystem::DestroySession` (lines 128-146). -/
def DestroySession (s : UMultiplayerSessionsSubsystem) : UMultiplayerSessionsSubsystem :=
  match s.SessionInterface with
  | none => Emit (Effect.DestroySessionComplete false) s
  | some p =>
    let s1 := AddOnCompleteDelegate_Handle OpKind.Destroy s
    let s2 := Emit Effect.CallDestroySession s1
    if !p.DestroySessionReturns then
      Emit (Effect.DestroySessionComplete false)
        (ClearOnCompleteDelegate_Handle OpKind.Destroy s2)
    else s2

/-- The settings object built at lines 48-58 of `CreateSession`. -/
def MakeSessionSettings (SubsystemName : String) (NumPublicConnections : Int)
    (MatchType : String) : FOnlineSessionSettings :=
  { bIsLANMatch := if SubsystemName = "NULL" then true else false,
    NumPublicConnections := NumPublicConnections,
    bAllowJoinInProgress := true,
    bAllowJoinViaPresence := true,
    bShouldAdvertise := true,
    bUsesPresence := true,
    bUseLobbiesIfAvailable := true,
    Settings := [("MatchType", MatchType)],
    BuildUniqueId := 1 }

/-- The member function `UMultiplayerSessionsSubsystem::CreateSession` (lines 25-72).  After the block
that latches `bCreateSessionOnDestroy` and calls `DestroySession()` there is no
`return`: control continues with the statements at lines 44-71. -/
def CreateSession (NumPublicConnections : Int) (MatchType : String)
    (s : UMultiplayerSessionsSubsystem) : UMultiplayerSessionsSubsystem :=
  match s.SessionInterface with
  | none => s
  | some p =>
    let s1 :=
      if p.NamedSession then
        DestroySession
          { s with bCreateSessionOnDestroy := true,
                   LastNumPublicConnections := NumPublicConnections,
                   LastMatchType := MatchType }
      else s
    let s2 := AddOnCompleteDelegate_Handle OpKind.Create s1
    let settings := MakeSessionSettings p.SubsystemName NumPublicConnections MatchType
    let s3 := { s2 with LastSessionSettings := some settings }
    let s4 := Emit (Effect.CallCreateSession settings) s3
    if !p.CreateSessionReturns then
      Emit (Effect.CreateSessionComplete false)
        (ClearOnCompleteDelegate_Handle OpKind.Create s4)
    else s4

/-- The search object built at lines 86-89 of `FindSessions`. -/
def MakeSessionSearch (SubsystemName : String) (MaxSearchResults : Int) :
    FOnlineSessionSearch :=
  { MaxSearchResults := MaxSearchResults,
    bIsLanQuery := if SubsystemName = "NULL" then true else false,
    QuerySettings := [("SEARCH_PRESENCE", true)],
    SearchResults := [] }

/-- The member function `UMultiplayerSessionsSubsystem::FindSessions` (lines 76-100). -/
def FindSessions (MaxSearchResults : Int)
    (s : UMultiplayerSessionsSubsystem) : UMultiplayerSessionsSubsystem :=
  match s.SessionInterface with
  | none => s
  | some p =>
    let s1 := AddOnCompleteDelegate_Handle OpKind.Find s
    let search := MakeSessionSearch p.SubsystemName MaxSearchResults
    let s2 := { s1 with LastSessionSearch := some search }
    let s3 := Emit (Effect.CallFindSessions search) s2
    if !p.FindSessionsReturns then
      Emit (Effect.FindSessionsComplete [] false)
        (ClearOnCompleteDelegate_Handle OpKind.Find s3)
    else s3

/-- The member function `UMultiplayerSessionsSubsystem::JoinSession` (lines 104-125). -/
def JoinSession (SessionResult : FOnlineSessionSearchResult)
    (s : UMultiplayerSessionsSubsystem) : UMultiplayerSessionsSubsystem :=
  match s.SessionInterface with
  | none => Emit (Effect.JoinSessionComplete EOnJoinSessionCompleteResult.UnknownError) s
  | some p =>
    let s1 := AddOnCompleteDelegate_Handle OpKind.Join s
    let s2 := Emit (Effect.CallJoinSession SessionResult) s1
    if !p.JoinSessionReturns then
      Emit (Effect.JoinSessionComplete EOnJoinSessionCompleteResult.UnknownError)
        (ClearOnCompleteDelegate_Handle OpKind.Join s2)
    else s2

/-- The member function `UMultiplayerSessionsSubsystem::StartSession` (lines 149-151): an empty body. -/
def StartSession (s : UMultiplayerSessionsSubsystem) : UMultiplayerSessionsSubsystem :=
  s

/-- The member function `UMultiplayerSessionsSubsystem::OnCreateSessionComplete` (lines 156-166). -/
def OnCreateSessionComplete (bWasSuccessful : Bool)
    (s : UMultiplayerSessionsSubsystem) : UMultiplayerSessionsSubsystem :=
  let s1 := if s.SessionInterface.isSome then ClearOnCompleteDelegate_Handle OpKind.Create s else s
  Emit (Effect.CreateSessionComplete bWasSuccessful) s1

/-- The member function `UMultiplayerSessionsSubsystem::OnFindSessionsComplete` (lines 170-185).
`LastSessionSearch` is dereferenced without a check: when it is null there is no
result (`none`). -/
def OnFindSessionsComplete (bWasSuccessful : Bool)
    (s : UMultiplayerSessionsSubsystem) : Option UMultiplayerSessionsSubsystem :=
  let s1 := if s.SessionInterface.isSome then ClearOnCompleteDelegate_Handle OpKind.Find s else s
  match s1.LastSessionSearch with
  | none => none
  | some search =>
    if search.SearchResults.length ≤ 0 then
      some (Emit (Effect.FindSessionsComplete [] false) s1)
    else
      some (Emit (Effect.FindSessionsComplete search.SearchResults bWasSuccessful) s1)

/-- The member function `UMultiplayerSessionsSubsystem::OnJoinSessionComplete` (lines 190-199). -/
def OnJoinSessionComplete (Result : EOnJoinSessionCompleteResult)
    (s : UMultiplayerSessionsSubsystem) : UMultiplayerSessionsSubsystem :=
  let s1 := if s.SessionInterface.isSome then ClearOnCompleteDelegate_Handle OpKind.Join s else s
  Emit (Effect.JoinSessionComplete Result) s1

/-- The statement `bCreateSessionOnDestroy = false;` (line 216). -/
def ResetIntent (s : UMultiplayerSessionsSubsystem) : UMultiplayerSessionsSubsystem :=
  { s with bCreateSessionOnDestroy := false }

/-- The member function `UMultiplayerSessionsSubsystem::OnDestroySessionComplete` (lines 204-221). -/
def OnDestroySessionComplete (bWasSuccessful : Bool)
    (s : UMultiplayerSessionsSubsystem) : UMultiplayerSessionsSubsystem :=
  let s1 := if s.SessionInterface.isSome then ClearOnCompleteDelegate_Handle OpKind.Destroy s else s
  let s2 :=
    if bWasSuccessful && s1.bCreateSessionOnDestroy then
      CreateSession s1.LastNumPublicConnections s1.LastMatchType (ResetIntent s1)
    else s1
  Emit (Effect.DestroySessionComplete bWasSuccessful) s2

/-- The member function `UMultiplayerSessionsSubsystem::OnStartSessionComplete` (lines 226-228): an
empty body. -/
def OnStartSessionComplete (_bWasSuccessful : Bool)
    (s : UMultiplayerSessionsSubsystem) : UMultiplayerSessionsSubsystem :=
  s

/-- A provider that accepts every call, with no delegate registered. -/
def Provider0 (NamedSession : Bool) : IOnlineSession :=
  { SubsystemName := "NULL", NamedSession := NamedSession,
    CreateSessionReturns := true, FindSessionsReturns := true,
    JoinSessionReturns := true, DestroySessionReturns := true,
    Delegates := [], NextHandle := 0 }

/-- Modelled from the spec: the subsystem right after construction, whose member
initialisers are in the header (not in this repository): no handle stored, the
Deferred Recreate Intent not latched, nothing logged. -/
def Subsystem0 (SessionInterface : Option IOnlineSession) : UMultiplayerSessionsSubsystem :=
  { SessionInterface := SessionInterface,
    LastSessionSettings := none, LastSessionSearch := none,
    CreateSessionCompleteDelegateHandle := none,
    FindSessionsCompleteDelegateHandle := none,
    JoinSessionCompleteDelegateHandle := none,
    DestroySessionCompleteDelegateHandle := none,
    StartSessionCompleteDelegateHandle := none,
    bCreateSessionOnDestroy := false,
    LastNumPublicConnections := 0, LastMatchType := "",
    Log := [] }

/-- A provider that rejects every call synchronously, with no delegate registered. -/
def ProviderRejecting (NamedSession : Bool) : IOnlineSession :=
  { Provider0 NamedSession with
    CreateSessionReturns := false, FindSessionsReturns := false,
    JoinSessionReturns := false, DestroySessionReturns := false }

/-- Whether an effect is the outward completion notification of kind `k`. -/
def IsNotification (k : OpKind) (e : Effect) : Bool :=
  match k, e with
  | .Create, .CreateSessionComplete _ => true
  | .Find, .FindSessionsComplete _ _ => true
  | .Join, .JoinSessionComplete _ => true
  | .Destroy, .DestroySessionComplete _ => true
  | .Start, .StartSessionComplete _ => true
  | _, _ => false

/-- The outward completion notifications of kind `k` in a log, in order. -/
def Notifications (k : OpKind) (log : List Effect) : List Effect :=
  log.filter (IsNotification k)

/-- The log entry of the guarded `ClearOn<Kind>CompleteDelegate_Handle` call of a
completion handler: the call is made only under `if (SessionInterface)`. -/
def HandlerUnsubscribe (k : OpKind) (s : UMultiplayerSessionsSubsystem) : List Effect :=
  if s.SessionInterface.isSome then [Effect.Unsubscribe k (DelegateHandle k s)] else []

/-- A state with the Deferred Recreate Intent latched with `(4, "Deathmatch")`, a
destroy handle stored and registered, and a provider that rejects every call. -/
def LatchedRejecting : UMultiplayerSessionsSubsystem :=
  { Subsystem0 (some { ProviderRejecting true with
        Delegates := [(OpKind.Destroy, 0)], NextHandle := 1 }) with
    DestroySessionCompleteDelegateHandle := some 0,
    bCreateSessionOnDestroy := true,
    LastNumPublicConnections := 4, LastMatchType := "Deathmatch" }

/-- The state in which a completion handler continues after its guarded
`ClearOn<Kind>CompleteDelegate_Handle` call (`if (SessionInterface) ...`). -/
def AfterHandlerUnsubscribe (k : OpKind)
    (s : UMultiplayerSessionsSubsystem) : UMultiplayerSessionsSubsystem :=
  if s.SessionInterface.isSome then ClearOnCompleteDelegate_Handle k s else s

/-- The handles of the delegates of kind `k` now registered at the provider. -/
def Outstanding (k : OpKind) (s : UMultiplayerSessionsSubsystem) : List Nat :=
  match s.SessionInterface with
  | none => []
  | some p => (p.Delegates.filter (fun d => decide (d.1 = k))).map Prod.snd

/-- Whether `GetNamedSession(NAME_GameSession)` is non-null (no provider: `false`). -/
def HasNamedSession (s : UMultiplayerSessionsSubsystem) : Bool :=
  match s.SessionInterface with
  | none => false
  | some p => p.NamedSession

/-- What can happen to the subsystem: a call of one of its five operations, a
completion raised by the provider, or a change at the provider between two calls. -/
inductive Action where
  | CreateSession (NumPublicConnections : Int) (MatchType : String)
  | FindSessions (MaxSearchResults : Int)
  | JoinSession (SessionResult : FOnlineSessionSearchResult)
  | DestroySession
  | StartSession
  | OnCreateSessionComplete (bWasSuccessful : Bool)
  | OnFindSessionsComplete (bWasSuccessful : Bool)
  | OnJoinSessionComplete (Result : EOnJoinSessionCompleteResult)
  | OnDestroySessionComplete (bWasSuccessful : Bool)
  | OnStartSessionComplete (bWasSuccessful : Bool)
  /-- The provider changes what it reports: whether the named session exists, its
  answers to the next calls, and the results of the stored search. -/
  | Provider (NamedSession CreateSessionReturns FindSessionsReturns JoinSessionReturns
      DestroySessionReturns : Bool) (SearchResults : List FOnlineSessionSearchResult)
  deriving DecidableEq, Repr

/-- Modelled from the spec: the provider's side of the contract of section 4.1, as far
as the subsystem can observe it between two calls. -/
def ProviderChange (NamedSession CreateSessionReturns FindSessionsReturns
    JoinSessionReturns DestroySessionReturns : Bool)
    (SearchResults : List FOnlineSessionSearchResult)
    (s : UMultiplayerSessionsSubsystem) : UMultiplayerSessionsSubsystem :=
  { s with
    SessionInterface := s.SessionInterface.map fun p =>
      { p with NamedSession := NamedSession,
               CreateSessionReturns := CreateSessionReturns,
               FindSessionsReturns := FindSessionsReturns,
               JoinSessionReturns := JoinSessionReturns,
               DestroySessionReturns := DestroySessionReturns },
    LastSessionSearch := s.LastSessionSearch.map fun q =>
      { q with SearchResults := SearchResults } }

/-- One action applied to the subsystem (`none`: the null `LastSessionSearch` was
dereferenced). -/
def Step (a : Action) (s : UMultiplayerSessionsSubsystem) :
    Option UMultiplayerSessionsSubsystem :=
  match a with
  | .CreateSession C M => some (CreateSession C M s)
  | .FindSessions n => some (FindSessions n s)
  | .JoinSession r => some (JoinSession r s)
  | .DestroySession => some (DestroySession s)
  | .StartSession => some (StartSession s)
  | .OnCreateSessionComplete b => some (OnCreateSessionComplete b s)
  | .OnFindSessionsComplete b => OnFindSessionsComplete b s
  | .OnJoinSessionComplete c => some (OnJoinSessionComplete c s)
  | .OnDestroySessionComplete b => some (OnDestroySessionComplete b s)
  | .OnStartSessionComplete b => some (OnStartSessionComplete b s)
  | .Provider ns cr fr jr dr rs => some (ProviderChange ns cr fr jr dr rs s)

/-- A run: the actions applied in order, each one only if `allowed` holds of it in the
state it is applied to (`none` otherwise). -/
def Run (allowed : Action → UMultiplayerSessionsSubsystem → Bool) :
    List Action → UMultiplayerSessionsSubsystem → Option UMultiplayerSessionsSubsystem
  | [], s => some s
  | a :: rest, s =>
    if allowed a s then
      match Step a s with
      | none => none
      | some s' => Run allowed rest s'
    else none

/-- No restriction on the actions of a run. -/
def Always (_a : Action) (_s : UMultiplayerSessionsSubsystem) : Bool := true

/-- The action subscribes no handle of a kind that still has a delegate registered:
no operation is started while one of its kind is pending.  `CreateSession` also
subscribes a destroy handle when a session exists, and the destroy-completion handler
subscribes a create handle when it chains a create. -/
def NoReentry (a : Action) (s : UMultiplayerSessionsSubsystem) : Bool :=
  match a with
  | .CreateSession _ _ =>
    decide (Outstanding OpKind.Create s = []) &&
      (!HasNamedSession s || decide (Outstanding OpKind.Destroy s = []))
  | .FindSessions _ => decide (Outstanding OpKind.Find s = [])
  | .JoinSession _ => decide (Outstanding OpKind.Join s = [])
  | .DestroySession => decide (Outstanding OpKind.Destroy s = [])
  | .OnDestroySessionComplete b =>
    !(b && s.bCreateSessionOnDestroy) || decide (Outstanding OpKind.Create s = [])
  | _ => true

/-- Handle hygiene for one kind: at most one delegate of the kind is registered, and
it is the one whose handle is stored. -/
def HygieneAt (k : OpKind) (s : UMultiplayerSessionsSubsystem) : Bool :=
  match Outstanding k s with
  | [] => true
  | [h] => decide (DelegateHandle k s = some h)
  | _ => false

/-- Handle hygiene for every kind. -/
def HandleHygiene (s : UMultiplayerSessionsSubsystem) : Bool :=
  HygieneAt OpKind.Create s && HygieneAt OpKind.Find s && HygieneAt OpKind.Join s &&
    HygieneAt OpKind.Destroy s && HygieneAt OpKind.Start s

/-- The action leaves the Deferred Recreate Intent alone: it is neither a
`CreateSession` that finds a session (which latches anew) nor a successful destroy
completion (which consumes the latch). -/
def KeepsIntent (a : Action) (s : UMultiplayerSessionsSubsystem) : Bool :=
  match a with
  | .CreateSession _ _ => !HasNamedSession s
  | .OnDestroySessionComplete b => !b
  | _ => true

/-- The handle the provider will hand out next (no provider: `0`). -/
def NextHandleOf (s : UMultiplayerSessionsSubsystem) : Nat :=
  match s.SessionInterface with
  | none => 0
  | some p => p.NextHandle

/-- The assignment to `LastSessionSearch` in `FindSessions` (lines 86-89). -/
def StoreSearch (q : FOnlineSessionSearch) (s : UMultiplayerSessionsSubsystem) :
    UMultiplayerSessionsSubsystem :=
  { s with LastSessionSearch := some q }

/-- The assignment to `LastSessionSettings` in `CreateSession` (lines 48-58). -/
def StoreSettings (q : FOnlineSessionSettings) (s : UMultiplayerSessionsSubsystem) :
    UMultiplayerSessionsSubsystem :=
  { s with LastSessionSettings := some q }

/-- The three assignments that latch the intent in `CreateSession` (lines 38-40). -/
def StoreIntent (C : Int) (M : String) (s : UMultiplayerSessionsSubsystem) :
    UMultiplayerSessionsSubsystem :=
  { s with bCreateSessionOnDestroy := true, LastNumPublicConnections := C,
           LastMatchType := M }

/-- The statements of `CreateSession` after the block for an existing session. -/
def CreateTail (SubsystemName : String) (CreateSessionReturns : Bool) (C : Int)
    (M : String) (s1 : UMultiplayerSessionsSubsystem) : UMultiplayerSessionsSubsystem :=
  if !CreateSessionReturns then
    Emit (Effect.CreateSessionComplete false)
      (ClearOnCompleteDelegate_Handle OpKind.Create
        (Emit (Effect.CallCreateSession (MakeSessionSettings SubsystemName C M))
          (StoreSettings (MakeSessionSettings SubsystemName C M)
            (AddOnCompleteDelegate_Handle OpKind.Create s1))))
  else
    Emit (Effect.CallCreateSession (MakeSessionSettings SubsystemName C M))
      (StoreSettings (MakeSessionSettings SubsystemName C M)
        (AddOnCompleteDelegate_Handle OpKind.Create s1))

/-- A leaked subscription: the delegate with handle `h` is registered for kind `k`,
but `h` is not the stored handle of that kind, and `h` was handed out in the past. -/
def Leaked (k : OpKind) (h : Nat) (s : UMultiplayerSessionsSubsystem) : Prop :=
  h ∈ Outstanding k s ∧ DelegateHandle k s ≠ some h ∧ h < NextHandleOf s

/-- The life of one operation of kind `k` started in `s` while no delegate of the kind
is registered, `s1` being the state after the call, `h` the handle handed out, `call`
the provider call and `fail` the failure notification.  Rejected: the handle is
subscribed, the provider called, the same handle unsubscribed and the failure
broadcast, and no delegate of the kind is left.  Accepted: the handle is subscribed
and stored, the provider called, and this one delegate stays registered. -/
def IdleLifecycle (k : OpKind) (returns : Bool) (h : Nat) (call fail : Effect)
    (s s1 : UMultiplayerSessionsSubsystem) : Prop :=
  (returns = false →
    Outstanding k s1 = [] ∧
    s1.Log = s.Log ++
      [Effect.Subscribe k h, call, Effect.Unsubscribe k (some h), fail]) ∧
  (returns = true →
    Outstanding k s1 = [h] ∧
    DelegateHandle k s1 = some h ∧
    s1.Log = s.Log ++ [Effect.Subscribe k h, call])

/-- An accepted call of kind `k` in any state `s`, `s1` being the state after it and
`h` the handle handed out: the new delegate is registered next to those already
there, `h` replaces the stored handle, and every delegate that was registered under
an earlier handle is now a leaked subscription. -/
def UnguardedCall (k : OpKind) (h : Nat)
    (s s1 : UMultiplayerSessionsSubsystem) : Prop :=
  Outstanding k s1 = Outstanding k s ++ [h] ∧
  DelegateHandle k s1 = some h ∧
  ∀ h0 ∈ Outstanding k s, h0 < h → Leaked k h0 s1

/-! ## Auxiliary lemmas -/

/-- In every state with the provider available and a session existing,
`CreateSession C M` latches the intent with `(C, M)`, starts with the destroy, and
still subscribes a create handle and calls the provider's `CreateSession` before it
returns. -/
theorem create_with_existing_session_calls_create (s : UMultiplayerSessionsSubsystem)
    (p : IOnlineSession) (C : Int) (M : String) (hp : s.SessionInterface = some p)
    (hn : p.NamedSession = true) :
    (CreateSession C M s).bCreateSessionOnDestroy = true ∧
      (CreateSession C M s).LastNumPublicConnections = C ∧
      (CreateSession C M s).LastMatchType = M ∧
      ∃ mid tail h, (CreateSession C M s).Log = s.Log ++
        [Effect.Subscribe OpKind.Destroy p.NextHandle, Effect.CallDestroySession] ++ mid ++
        [Effect.Subscribe OpKind.Create h,
         Effect.CallCreateSession (MakeSessionSettings p.SubsystemName C M)] ++ tail := by
  cases hd : p.DestroySessionReturns <;> cases hc : p.CreateSessionReturns <;>
    simp [CreateSession, DestroySession, AddOnCompleteDelegate_Handle,
      ClearOnCompleteDelegate_Handle, SetDelegateHandle, DelegateHandle, Emit,
      hp, hn, hd, hc]
  · exact ⟨[Effect.Unsubscribe OpKind.Destroy (some p.NextHandle),
      Effect.DestroySessionComplete false], [Effect.Unsubscribe OpKind.Create
        (some (p.NextHandle + 1)), Effect.CreateSessionComplete false],
      p.NextHandle + 1, by simp⟩
  · exact ⟨[Effect.Unsubscribe OpKind.Destroy (some p.NextHandle),
      Effect.DestroySessionComplete false], [], p.NextHandle + 1, by simp⟩
  · exact ⟨[], [Effect.Unsubscribe OpKind.Create (some (p.NextHandle + 1)),
      Effect.CreateSessionComplete false], p.NextHandle + 1, by simp⟩
  · exact ⟨[], [], p.NextHandle + 1, by simp⟩

theorem Outstanding_Emit (k : OpKind) (e : Effect) (s : UMultiplayerSessionsSubsystem) :
    Outstanding k (Emit e s) = Outstanding k s := rfl

theorem DelegateHandle_Emit (k : OpKind) (e : Effect) (s : UMultiplayerSessionsSubsystem) :
    DelegateHandle k (Emit e s) = DelegateHandle k s := by
  cases k <;> rfl

theorem Outstanding_SetDelegateHandle (k k' : OpKind) (h : Option Nat)
    (s : UMultiplayerSessionsSubsystem) :
    Outstanding k' (SetDelegateHandle k h s) = Outstanding k' s := by
  cases k <;> rfl

theorem DelegateHandle_SetDelegateHandle (k k' : OpKind) (h : Option Nat)
    (s : UMultiplayerSessionsSubsystem) :
    DelegateHandle k' (SetDelegateHandle k h s) =
      if k' = k then h else DelegateHandle k' s := by
  cases k <;> cases k' <;> simp [DelegateHandle, SetDelegateHandle]

theorem Outstanding_Add (k k' : OpKind) (s : UMultiplayerSessionsSubsystem)
    (p : IOnlineSession) (hp : s.SessionInterface = some p) :
    Outstanding k' (AddOnCompleteDelegate_Handle k s) =
      if k' = k then Outstanding k' s ++ [p.NextHandle] else Outstanding k' s := by
  simp only [AddOnCompleteDelegate_Handle, hp, Outstanding_SetDelegateHandle]
  by_cases h : k' = k
  · subst h
    simp [Outstanding, hp]
  · have h' : ¬ k = k' := fun e => h e.symm
    simp [Outstanding, hp, h, h']

theorem DelegateHandle_Add (k k' : OpKind) (s : UMultiplayerSessionsSubsystem)
    (p : IOnlineSession) (hp : s.SessionInterface = some p) :
    DelegateHandle k' (AddOnCompleteDelegate_Handle k s) =
      if k' = k then some p.NextHandle else DelegateHandle k' s := by
  simp only [AddOnCompleteDelegate_Handle, hp, DelegateHandle_SetDelegateHandle]
  cases k' <;> rfl

theorem filter_cleared (k k' : OpKind) (st : Option Nat) (D : List (OpKind × Nat)) :
    ((D.filter (fun d => !(decide (d.1 = k) && decide (some d.2 = st)))).filter
        (fun d => decide (d.1 = k'))).map Prod.snd =
      if k' = k then
        (((D.filter (fun d => decide (d.1 = k'))).map Prod.snd).filter
          (fun h => !decide (some h = st)))
      else (D.filter (fun d => decide (d.1 = k'))).map Prod.snd := by
  by_cases hk : k' = k
  · subst hk
    rw [if_pos rfl, List.filter_map, List.filter_filter, List.filter_filter]
    congr 1
    apply List.filter_congr
    intro d _
    by_cases h1 : d.1 = k' <;> by_cases h2 : some d.2 = st <;> simp [h1, h2]
  · rw [if_neg hk, List.filter_filter]
    congr 1
    apply List.filter_congr
    intro d _
    by_cases h1 : d.1 = k'
    · have h2 : ¬ d.1 = k := fun e => hk (h1.symm.trans e)
      simp [h1, h2]
      exact Or.inl hk
    · simp [h1]

theorem Outstanding_Clear (k k' : OpKind) (s : UMultiplayerSessionsSubsystem) :
    Outstanding k' (ClearOnCompleteDelegate_Handle k s) =
      if k' = k then
        (Outstanding k' s).filter (fun h => !decide (some h = DelegateHandle k s))
      else Outstanding k' s := by
  cases hp : s.SessionInterface with
  | none => simp [ClearOnCompleteDelegate_Handle, Outstanding, hp]
  | some p =>
    simp only [ClearOnCompleteDelegate_Handle, hp, Outstanding_SetDelegateHandle]
    simp only [Outstanding, hp]
    exact filter_cleared k k' _ _

theorem DelegateHandle_Clear (k k' : OpKind) (s : UMultiplayerSessionsSubsystem)
    (p : IOnlineSession) (hp : s.SessionInterface = some p) :
    DelegateHandle k' (ClearOnCompleteDelegate_Handle k s) =
      if k' = k then none else DelegateHandle k' s := by
  simp only [ClearOnCompleteDelegate_Handle, hp, DelegateHandle_SetDelegateHandle]
  cases k' <;> rfl

theorem isSome_Emit (e : Effect) (s : UMultiplayerSessionsSubsystem) :
    (Emit e s).SessionInterface.isSome = s.SessionInterface.isSome := rfl

theorem isSome_Add (k : OpKind) (s : UMultiplayerSessionsSubsystem) :
    (AddOnCompleteDelegate_Handle k s).SessionInterface.isSome =
      s.SessionInterface.isSome := by
  cases hp : s.SessionInterface <;> cases k <;>
    simp [AddOnCompleteDelegate_Handle, SetDelegateHandle, hp]

theorem isSome_Clear (k : OpKind) (s : UMultiplayerSessionsSubsystem) :
    (ClearOnCompleteDelegate_Handle k s).SessionInterface.isSome =
      s.SessionInterface.isSome := by
  cases hp : s.SessionInterface <;> cases k <;>
    simp [ClearOnCompleteDelegate_Handle, SetDelegateHandle, hp]

theorem Outstanding_Add' (k k' : OpKind) (s : UMultiplayerSessionsSubsystem)
    (hav : s.SessionInterface.isSome = true) :
    Outstanding k' (AddOnCompleteDelegate_Handle k s) =
      if k' = k then Outstanding k' s ++ [NextHandleOf s] else Outstanding k' s := by
  cases hp : s.SessionInterface with
  | none => simp [hp] at hav
  | some p => simpa [NextHandleOf, hp] using Outstanding_Add k k' s p hp

theorem DelegateHandle_Add' (k k' : OpKind) (s : UMultiplayerSessionsSubsystem)
    (hav : s.SessionInterface.isSome = true) :
    DelegateHandle k' (AddOnCompleteDelegate_Handle k s) =
      if k' = k then some (NextHandleOf s) else DelegateHandle k' s := by
  cases hp : s.SessionInterface with
  | none => simp [hp] at hav
  | some p => simpa [NextHandleOf, hp] using DelegateHandle_Add k k' s p hp

theorem DelegateHandle_Clear' (k k' : OpKind) (s : UMultiplayerSessionsSubsystem)
    (hav : s.SessionInterface.isSome = true) :
    DelegateHandle k' (ClearOnCompleteDelegate_Handle k s) =
      if k' = k then none else DelegateHandle k' s := by
  cases hp : s.SessionInterface with
  | none => simp [hp] at hav
  | some p => exact DelegateHandle_Clear k k' s p hp

theorem HygieneAt_congr {k : OpKind} {t u : UMultiplayerSessionsSubsystem}
    (h1 : Outstanding k t = Outstanding k u)
    (h2 : DelegateHandle k t = DelegateHandle k u) : HygieneAt k t = HygieneAt k u := by
  simp [HygieneAt, h1, h2]

theorem HygieneAt_of_nil {k : OpKind} {t : UMultiplayerSessionsSubsystem}
    (h1 : Outstanding k t = []) : HygieneAt k t = true := by
  simp [HygieneAt, h1]

theorem HygieneAt_iff (k : OpKind) (s : UMultiplayerSessionsSubsystem) :
    HygieneAt k s = true ↔
      Outstanding k s = [] ∨
        ∃ h, Outstanding k s = [h] ∧ DelegateHandle k s = some h := by
  unfold HygieneAt
  rcases hO : Outstanding k s with _ | ⟨a, _ | ⟨b, l⟩⟩ <;> simp [eq_comm]

theorem Outstanding_StoreSearch (k : OpKind) (q : FOnlineSessionSearch)
    (s : UMultiplayerSessionsSubsystem) :
    Outstanding k (StoreSearch q s) = Outstanding k s := rfl

theorem DelegateHandle_StoreSearch (k : OpKind) (q : FOnlineSessionSearch)
    (s : UMultiplayerSessionsSubsystem) :
    DelegateHandle k (StoreSearch q s) = DelegateHandle k s := by
  cases k <;> rfl

theorem isSome_StoreSearch (q : FOnlineSessionSearch) (s : UMultiplayerSessionsSubsystem) :
    (StoreSearch q s).SessionInterface.isSome = s.SessionInterface.isSome := rfl

theorem Outstanding_StoreSettings (k : OpKind) (q : FOnlineSessionSettings)
    (s : UMultiplayerSessionsSubsystem) :
    Outstanding k (StoreSettings q s) = Outstanding k s := rfl

theorem DelegateHandle_StoreSettings (k : OpKind) (q : FOnlineSessionSettings)
    (s : UMultiplayerSessionsSubsystem) :
    DelegateHandle k (StoreSettings q s) = DelegateHandle k s := by
  cases k <;> rfl

theorem isSome_StoreSettings (q : FOnlineSessionSettings)
    (s : UMultiplayerSessionsSubsystem) :
    (StoreSettings q s).SessionInterface.isSome = s.SessionInterface.isSome := rfl

theorem Outstanding_StoreIntent (k : OpKind) (C : Int) (M : String)
    (s : UMultiplayerSessionsSubsystem) :
    Outstanding k (StoreIntent C M s) = Outstanding k s := rfl

theorem DelegateHandle_StoreIntent (k : OpKind) (C : Int) (M : String)
    (s : UMultiplayerSessionsSubsystem) :
    DelegateHandle k (StoreIntent C M s) = DelegateHandle k s := by
  cases k <;> rfl

theorem isSome_StoreIntent (C : Int) (M : String) (s : UMultiplayerSessionsSubsystem) :
    (StoreIntent C M s).SessionInterface.isSome = s.SessionInterface.isSome := rfl

theorem Outstanding_ResetIntent (k : OpKind) (s : UMultiplayerSessionsSubsystem) :
    Outstanding k (ResetIntent s) = Outstanding k s := rfl

theorem DelegateHandle_ResetIntent (k : OpKind) (s : UMultiplayerSessionsSubsystem) :
    DelegateHandle k (ResetIntent s) = DelegateHandle k s := by
  cases k <;> rfl

theorem isSome_ResetIntent (s : UMultiplayerSessionsSubsystem) :
    (ResetIntent s).SessionInterface.isSome = s.SessionInterface.isSome := rfl

theorem Outstanding_of_none (k : OpKind) (s : UMultiplayerSessionsSubsystem)
    (h : s.SessionInterface = none) : Outstanding k s = [] := by
  simp [Outstanding, h]

/-- Clearing a handle keeps the hygiene of every kind. -/
theorem hygiene_Clear (k k' : OpKind) (s : UMultiplayerSessionsSubsystem)
    (h : HygieneAt k' s = true) :
    HygieneAt k' (ClearOnCompleteDelegate_Handle k s) = true := by
  cases hp : s.SessionInterface with
  | none => simpa [ClearOnCompleteDelegate_Handle, hp] using h
  | some p =>
    have hav : s.SessionInterface.isSome = true := by simp [hp]
    by_cases hk : k' = k
    · subst hk
      apply HygieneAt_of_nil
      rcases (HygieneAt_iff k' s).1 h with h1 | ⟨n, h1, h2⟩
      · simp [Outstanding_Clear, h1]
      · simp [Outstanding_Clear, h1, h2]
    · rw [HygieneAt_congr (u := s)] <;>
        simp [h, hk, Outstanding_Clear, DelegateHandle_Clear', hav]

/-- After clearing, no delegate of the cleared kind is registered. -/
theorem Outstanding_Clear_nil (k : OpKind) (s : UMultiplayerSessionsSubsystem)
    (h : HygieneAt k s = true) :
    Outstanding k (ClearOnCompleteDelegate_Handle k s) = [] := by
  rcases (HygieneAt_iff k s).1 h with h1 | ⟨n, h1, h2⟩
  · simp [Outstanding_Clear, h1]
  · simp [Outstanding_Clear, h1, h2]

theorem AfterHandlerUnsubscribe_eq (k : OpKind) (s : UMultiplayerSessionsSubsystem) :
    AfterHandlerUnsubscribe k s = ClearOnCompleteDelegate_Handle k s := by
  cases hp : s.SessionInterface <;>
    simp [AfterHandlerUnsubscribe, ClearOnCompleteDelegate_Handle, hp]

theorem hygiene_FindSessions (n : Int) (s : UMultiplayerSessionsSubsystem) (k' : OpKind)
    (h : HygieneAt k' s = true) (h0 : Outstanding OpKind.Find s = []) :
    HygieneAt k' (FindSessions n s) = true := by
  cases hp : s.SessionInterface with
  | none => simpa [FindSessions, hp] using h
  | some p =>
    have hav : s.SessionInterface.isSome = true := by simp [hp]
    have hb : FindSessions n s =
        if !p.FindSessionsReturns then
          Emit (Effect.FindSessionsComplete [] false)
            (ClearOnCompleteDelegate_Handle OpKind.Find
              (Emit (Effect.CallFindSessions (MakeSessionSearch p.SubsystemName n))
                (StoreSearch (MakeSessionSearch p.SubsystemName n)
                  (AddOnCompleteDelegate_Handle OpKind.Find s))))
        else
          Emit (Effect.CallFindSessions (MakeSessionSearch p.SubsystemName n))
            (StoreSearch (MakeSessionSearch p.SubsystemName n)
              (AddOnCompleteDelegate_Handle OpKind.Find s)) := by
      simp only [FindSessions, hp]
      rfl
    rw [hb]
    cases hr : p.FindSessionsReturns <;> cases k' <;>
      simp_all [HygieneAt, Outstanding_Emit, DelegateHandle_Emit, Outstanding_Clear,
        DelegateHandle_Clear', Outstanding_Add', DelegateHandle_Add', isSome_Emit,
        isSome_Add, isSome_Clear, Outstanding_StoreSearch, DelegateHandle_StoreSearch,
        isSome_StoreSearch]

theorem hygiene_JoinSession (r : FOnlineSessionSearchResult)
    (s : UMultiplayerSessionsSubsystem) (k' : OpKind)
    (h : HygieneAt k' s = true) (h0 : Outstanding OpKind.Join s = []) :
    HygieneAt k' (JoinSession r s) = true := by
  cases hp : s.SessionInterface with
  | none =>
    apply HygieneAt_of_nil
    exact Outstanding_of_none _ _ (by simp [JoinSession, Emit, hp])
  | some p =>
    have hav : s.SessionInterface.isSome = true := by simp [hp]
    have hb : JoinSession r s =
        if !p.JoinSessionReturns then
          Emit (Effect.JoinSessionComplete EOnJoinSessionCompleteResult.UnknownError)
            (ClearOnCompleteDelegate_Handle OpKind.Join
              (Emit (Effect.CallJoinSession r)
                (AddOnCompleteDelegate_Handle OpKind.Join s)))
        else
          Emit (Effect.CallJoinSession r) (AddOnCompleteDelegate_Handle OpKind.Join s) := by
      simp only [JoinSession, hp]
    rw [hb]
    cases hr : p.JoinSessionReturns <;> cases k' <;>
      simp_all [HygieneAt, Outstanding_Emit, DelegateHandle_Emit, Outstanding_Clear,
        DelegateHandle_Clear', Outstanding_Add', DelegateHandle_Add', isSome_Emit,
        isSome_Add, isSome_Clear]

theorem DestroySession_eq (s : UMultiplayerSessionsSubsystem) (p : IOnlineSession)
    (hp : s.SessionInterface = some p) :
    DestroySession s =
      if !p.DestroySessionReturns then
        Emit (Effect.DestroySessionComplete false)
          (ClearOnCompleteDelegate_Handle OpKind.Destroy
            (Emit Effect.CallDestroySession
              (AddOnCompleteDelegate_Handle OpKind.Destroy s)))
      else
        Emit Effect.CallDestroySession (AddOnCompleteDelegate_Handle OpKind.Destroy s) := by
  simp only [DestroySession, hp]

theorem hygiene_DestroySession (s : UMultiplayerSessionsSubsystem) (k' : OpKind)
    (h : HygieneAt k' s = true) (h0 : Outstanding OpKind.Destroy s = []) :
    HygieneAt k' (DestroySession s) = true := by
  cases hp : s.SessionInterface with
  | none =>
    apply HygieneAt_of_nil
    exact Outstanding_of_none _ _ (by simp [DestroySession, Emit, hp])
  | some p =>
    have hav : s.SessionInterface.isSome = true := by simp [hp]
    rw [DestroySession_eq s p hp]
    cases hr : p.DestroySessionReturns <;> cases k' <;>
      simp_all [HygieneAt, Outstanding_Emit, DelegateHandle_Emit, Outstanding_Clear,
        DelegateHandle_Clear', Outstanding_Add', DelegateHandle_Add', isSome_Emit,
        isSome_Add, isSome_Clear]

theorem isSome_DestroySession (s : UMultiplayerSessionsSubsystem) :
    (DestroySession s).SessionInterface.isSome = s.SessionInterface.isSome := by
  cases hp : s.SessionInterface with
  | none => simp [DestroySession, Emit, hp]
  | some p =>
    rw [DestroySession_eq s p hp]
    cases hr : p.DestroySessionReturns <;>
      simp [isSome_Emit, isSome_Add, isSome_Clear, hp]

theorem Outstanding_DestroySession (s : UMultiplayerSessionsSubsystem) (k' : OpKind)
    (hk : k' ≠ OpKind.Destroy) :
    Outstanding k' (DestroySession s) = Outstanding k' s := by
  cases hp : s.SessionInterface with
  | none => simp [DestroySession, Emit, hp, Outstanding]
  | some p =>
    have hav : s.SessionInterface.isSome = true := by simp [hp]
    rw [DestroySession_eq s p hp]
    cases hr : p.DestroySessionReturns <;>
      simp [Outstanding_Emit, Outstanding_Clear, Outstanding_Add', hk, hav]

theorem CreateSession_eq (C : Int) (M : String) (s : UMultiplayerSessionsSubsystem)
    (p : IOnlineSession) (hp : s.SessionInterface = some p) :
    CreateSession C M s =
      CreateTail p.SubsystemName p.CreateSessionReturns C M
        (if p.NamedSession then DestroySession (StoreIntent C M s) else s) := by
  cases s
  simp only at hp
  subst hp
  rfl

theorem hygiene_CreateTail (name : String) (ret : Bool) (C : Int) (M : String)
    (s : UMultiplayerSessionsSubsystem) (k' : OpKind)
    (hav : s.SessionInterface.isSome = true)
    (h : HygieneAt k' s = true) (h0 : Outstanding OpKind.Create s = []) :
    HygieneAt k' (CreateTail name ret C M s) = true := by
  unfold CreateTail
  cases ret <;> cases k' <;>
    simp_all [HygieneAt, Outstanding_Emit, DelegateHandle_Emit, Outstanding_Clear,
      DelegateHandle_Clear', Outstanding_Add', DelegateHandle_Add', isSome_Emit,
      isSome_Add, isSome_Clear, Outstanding_StoreSettings, DelegateHandle_StoreSettings,
      isSome_StoreSettings]

theorem hygiene_CreateSession (C : Int) (M : String) (s : UMultiplayerSessionsSubsystem)
    (k' : OpKind) (h : HygieneAt k' s = true) (h0 : Outstanding OpKind.Create s = [])
    (h1 : HasNamedSession s = true → Outstanding OpKind.Destroy s = []) :
    HygieneAt k' (CreateSession C M s) = true := by
  cases hp : s.SessionInterface with
  | none => simpa [CreateSession, hp] using h
  | some p =>
    have hav : s.SessionInterface.isSome = true := by simp [hp]
    rw [CreateSession_eq C M s p hp]
    cases hn : p.NamedSession
    · exact hygiene_CreateTail _ _ _ _ _ _ hav h h0
    · have h1' : Outstanding OpKind.Destroy s = [] := h1 (by simp [HasNamedSession, hp, hn])
      simp only [if_true]
      apply hygiene_CreateTail
      · simpa [isSome_DestroySession] using hav
      · apply hygiene_DestroySession
        · rw [HygieneAt_congr (u := s)]
          · exact h
          · rfl
          · exact DelegateHandle_StoreIntent _ _ _ _
        · exact h1'
      · rw [Outstanding_DestroySession _ _ (by decide)]
        exact h0

theorem hygiene_handler (k k' : OpKind) (e : Effect) (s : UMultiplayerSessionsSubsystem)
    (h : HygieneAt k' s = true) :
    HygieneAt k' (Emit e (AfterHandlerUnsubscribe k s)) = true := by
  rw [AfterHandlerUnsubscribe_eq, HygieneAt_congr (u := ClearOnCompleteDelegate_Handle k s)
    (Outstanding_Emit _ _ _) (DelegateHandle_Emit _ _ _)]
  exact hygiene_Clear k k' s h

theorem HandleHygiene_iff (s : UMultiplayerSessionsSubsystem) :
    HandleHygiene s = true ↔ ∀ k, HygieneAt k s = true := by
  constructor
  · intro h k
    simp only [HandleHygiene, Bool.and_eq_true] at h
    cases k <;> simp [h]
  · intro h
    simp [HandleHygiene, h]

theorem hygiene_ProviderChange (ns cr fr jr dr : Bool)
    (rs : List FOnlineSessionSearchResult) (s : UMultiplayerSessionsSubsystem)
    (k' : OpKind) (h : HygieneAt k' s = true) :
    HygieneAt k' (ProviderChange ns cr fr jr dr rs s) = true := by
  rw [HygieneAt_congr (u := s)]
  · exact h
  · cases hp : s.SessionInterface <;> simp [Outstanding, ProviderChange, hp]
  · cases k' <;> rfl

theorem hygiene_OnDestroySessionComplete (b : Bool) (s : UMultiplayerSessionsSubsystem)
    (k' : OpKind) (h : ∀ k, HygieneAt k s = true)
    (h0 : (b && s.bCreateSessionOnDestroy) = true → Outstanding OpKind.Create s = []) :
    HygieneAt k' (OnDestroySessionComplete b s) = true := by
  have hb : OnDestroySessionComplete b s =
      Emit (Effect.DestroySessionComplete b)
        (if (b && (ClearOnCompleteDelegate_Handle OpKind.Destroy s).bCreateSessionOnDestroy)
          then CreateSession
            (ClearOnCompleteDelegate_Handle OpKind.Destroy s).LastNumPublicConnections
            (ClearOnCompleteDelegate_Handle OpKind.Destroy s).LastMatchType
            (ResetIntent (ClearOnCompleteDelegate_Handle OpKind.Destroy s))
          else ClearOnCompleteDelegate_Handle OpKind.Destroy s) := by
    rw [← AfterHandlerUnsubscribe_eq]
    rfl
  have hl : (ClearOnCompleteDelegate_Handle OpKind.Destroy s).bCreateSessionOnDestroy =
      s.bCreateSessionOnDestroy := by
    cases hp : s.SessionInterface <;>
      simp [ClearOnCompleteDelegate_Handle, SetDelegateHandle, hp]
  rw [hb, hl, HygieneAt_congr (Outstanding_Emit _ _ _) (DelegateHandle_Emit _ _ _)]
  by_cases hc : (b && s.bCreateSessionOnDestroy) = true
  · rw [if_pos hc]
    apply hygiene_CreateSession
    · rw [HygieneAt_congr (Outstanding_ResetIntent _ _) (DelegateHandle_ResetIntent _ _)]
      exact hygiene_Clear _ _ _ (h k')
    · rw [Outstanding_ResetIntent, Outstanding_Clear, if_neg (by decide)]
      exact h0 hc
    · intro _
      rw [Outstanding_ResetIntent]
      exact Outstanding_Clear_nil _ _ (h _)
  · rw [if_neg hc]
    exact hygiene_Clear _ _ _ (h k')

/-- One step that starts no operation of a pending kind keeps handle hygiene. -/
theorem hygiene_Step (a : Action) (s s' : UMultiplayerSessionsSubsystem)
    (h : HandleHygiene s = true) (hg : NoReentry a s = true) (hs : Step a s = some s') :
    HandleHygiene s' = true := by
  rw [HandleHygiene_iff] at h ⊢
  intro k'
  cases a with
  | CreateSession C M =>
    simp only [Step, Option.some.injEq] at hs
    subst hs
    simp only [NoReentry, Bool.and_eq_true, Bool.or_eq_true, decide_eq_true_eq,
      Bool.not_eq_true'] at hg
    apply hygiene_CreateSession _ _ _ _ (h k') hg.1
    intro hn
    rcases hg.2 with h2 | h2
    · rw [hn] at h2
      exact absurd h2 (by decide)
    · exact h2
  | FindSessions n =>
    simp only [Step, Option.some.injEq] at hs
    subst hs
    simp only [NoReentry, decide_eq_true_eq] at hg
    exact hygiene_FindSessions _ _ _ (h k') hg
  | JoinSession r =>
    simp only [Step, Option.some.injEq] at hs
    subst hs
    simp only [NoReentry, decide_eq_true_eq] at hg
    exact hygiene_JoinSession _ _ _ (h k') hg
  | DestroySession =>
    simp only [Step, Option.some.injEq] at hs
    subst hs
    simp only [NoReentry, decide_eq_true_eq] at hg
    exact hygiene_DestroySession _ _ (h k') hg
  | StartSession =>
    simp only [Step, Option.some.injEq] at hs
    subst hs
    exact h k'
  | OnCreateSessionComplete b =>
    simp only [Step, Option.some.injEq] at hs
    subst hs
    exact hygiene_handler _ _ _ _ (h k')
  | OnFindSessionsComplete b =>
    simp only [Step, OnFindSessionsComplete] at hs
    split at hs
    · exact absurd hs (by simp)
    · split at hs <;>
        (simp only [Option.some.injEq] at hs
         subst hs
         exact hygiene_handler _ _ _ _ (h k'))
  | OnJoinSessionComplete c =>
    simp only [Step, Option.some.injEq] at hs
    subst hs
    exact hygiene_handler _ _ _ _ (h k')
  | OnDestroySessionComplete b =>
    simp only [Step, Option.some.injEq] at hs
    subst hs
    apply hygiene_OnDestroySessionComplete _ _ _ h
    intro hc
    simp only [NoReentry, Bool.or_eq_true, Bool.not_eq_true', decide_eq_true_eq] at hg
    rcases hg with h2 | h2
    · rw [hc] at h2
      exact absurd h2 (by decide)
    · exact h2
  | OnStartSessionComplete b =>
    simp only [Step, Option.some.injEq] at hs
    subst hs
    exact h k'
  | Provider ns cr fr jr dr rs =>
    simp only [Step, Option.some.injEq] at hs
    subst hs
    exact hygiene_ProviderChange _ _ _ _ _ _ _ _ (h k')

/-- Handle hygiene is kept along every run that starts no operation of a pending kind. -/
theorem hygiene_Run (acts : List Action) (s s' : UMultiplayerSessionsSubsystem)
    (h : HandleHygiene s = true) (hr : Run NoReentry acts s = some s') :
    HandleHygiene s' = true := by
  induction acts generalizing s with
  | nil =>
    simp only [Run, Option.some.injEq] at hr
    subst hr
    exact h
  | cons a rest ih =>
    simp only [Run] at hr
    split at hr
    · rename_i hg
      cases hs : Step a s with
      | none => simp [hs] at hr
      | some s1 =>
        simp only [hs] at hr
        exact ih s1 (hygiene_Step a s s1 h hg hs) hr
    · exact absurd hr (by simp)

/-- A step that is neither a `CreateSession` finding a session nor a successful
destroy completion leaves the latch and the saved pair as they are. -/
theorem intent_Step (a : Action) (s s' : UMultiplayerSessionsSubsystem)
    (hk : KeepsIntent a s = true) (hs : Step a s = some s') :
    s'.bCreateSessionOnDestroy = s.bCreateSessionOnDestroy ∧
      s'.LastNumPublicConnections = s.LastNumPublicConnections ∧
      s'.LastMatchType = s.LastMatchType := by
  cases a with
  | CreateSession C M =>
    simp only [Step, Option.some.injEq] at hs
    subst hs
    cases hp : s.SessionInterface with
    | none => simp [CreateSession, hp]
    | some p =>
      have hn : p.NamedSession = false := by
        simpa [KeepsIntent, HasNamedSession, hp] using hk
      cases hc : p.CreateSessionReturns <;>
        simp [CreateSession, AddOnCompleteDelegate_Handle, ClearOnCompleteDelegate_Handle,
          SetDelegateHandle, DelegateHandle, Emit, hp, hn, hc]
  | FindSessions n =>
    simp only [Step, Option.some.injEq] at hs
    subst hs
    cases hp : s.SessionInterface with
    | none => simp [FindSessions, hp]
    | some p =>
      cases hc : p.FindSessionsReturns <;>
        simp [FindSessions, AddOnCompleteDelegate_Handle, ClearOnCompleteDelegate_Handle,
          SetDelegateHandle, DelegateHandle, Emit, hp, hc]
  | JoinSession r =>
    simp only [Step, Option.some.injEq] at hs
    subst hs
    cases hp : s.SessionInterface with
    | none => simp [JoinSession, Emit, hp]
    | some p =>
      cases hc : p.JoinSessionReturns <;>
        simp [JoinSession, AddOnCompleteDelegate_Handle, ClearOnCompleteDelegate_Handle,
          SetDelegateHandle, DelegateHandle, Emit, hp, hc]
  | DestroySession =>
    simp only [Step, Option.some.injEq] at hs
    subst hs
    cases hp : s.SessionInterface with
    | none => simp [DestroySession, Emit, hp]
    | some p =>
      cases hc : p.DestroySessionReturns <;>
        simp [DestroySession, AddOnCompleteDelegate_Handle, ClearOnCompleteDelegate_Handle,
          SetDelegateHandle, DelegateHandle, Emit, hp, hc]
  | StartSession =>
    simp only [Step, Option.some.injEq] at hs
    subst hs
    simp [StartSession]
  | OnCreateSessionComplete b =>
    simp only [Step, Option.some.injEq] at hs
    subst hs
    cases hp : s.SessionInterface <;>
      simp [OnCreateSessionComplete, ClearOnCompleteDelegate_Handle, SetDelegateHandle,
        DelegateHandle, Emit, hp]
  | OnFindSessionsComplete b =>
    simp only [Step, OnFindSessionsComplete] at hs
    split at hs
    · exact absurd hs (by simp)
    · split at hs <;>
        (simp only [Option.some.injEq] at hs
         subst hs
         cases hp : s.SessionInterface <;>
           simp [ClearOnCompleteDelegate_Handle, SetDelegateHandle, DelegateHandle,
             Emit, hp])
  | OnJoinSessionComplete c =>
    simp only [Step, Option.some.injEq] at hs
    subst hs
    cases hp : s.SessionInterface <;>
      simp [OnJoinSessionComplete, ClearOnCompleteDelegate_Handle, SetDelegateHandle,
        DelegateHandle, Emit, hp]
  | OnDestroySessionComplete b =>
    simp only [Step, Option.some.injEq] at hs
    subst hs
    have hb : b = false := by simpa [KeepsIntent] using hk
    subst hb
    cases hp : s.SessionInterface <;>
      simp [OnDestroySessionComplete, ClearOnCompleteDelegate_Handle, SetDelegateHandle,
        DelegateHandle, Emit, hp]
  | OnStartSessionComplete b =>
    simp only [Step, Option.some.injEq] at hs
    subst hs
    simp [OnStartSessionComplete]
  | Provider ns cr fr jr dr rs =>
    simp only [Step, Option.some.injEq] at hs
    subst hs
    simp [ProviderChange]

/-- Along a run of such steps the latch and the saved pair do not change. -/
theorem intent_Run (acts : List Action) (s s' : UMultiplayerSessionsSubsystem)
    (hr : Run KeepsIntent acts s = some s') :
    s'.bCreateSessionOnDestroy = s.bCreateSessionOnDestroy ∧
      s'.LastNumPublicConnections = s.LastNumPublicConnections ∧
      s'.LastMatchType = s.LastMatchType := by
  induction acts generalizing s with
  | nil =>
    simp only [Run, Option.some.injEq] at hr
    subst hr
    exact ⟨rfl, rfl, rfl⟩
  | cons a rest ih =>
    simp only [Run] at hr
    split at hr
    · rename_i hg
      cases hs : Step a s with
      | none => simp [hs] at hr
      | some s1 =>
        simp only [hs] at hr
        obtain ⟨h1, h2, h3⟩ := intent_Step a s s1 hg hs
        obtain ⟨g1, g2, g3⟩ := ih s1 hr
        exact ⟨g1.trans h1, g2.trans h2, g3.trans h3⟩
    · exact absurd hr (by simp)

/-- With the intent latched, the destroy-completion handler called with `true` is the
final broadcast after `CreateSession` on the saved pair. -/
theorem OnDestroySessionComplete_chain (s : UMultiplayerSessionsSubsystem)
    (hl : s.bCreateSessionOnDestroy = true) :
    OnDestroySessionComplete true s =
      Emit (Effect.DestroySessionComplete true)
        (CreateSession s.LastNumPublicConnections s.LastMatchType
          (ResetIntent (AfterHandlerUnsubscribe OpKind.Destroy s))) := by
  cases hp : s.SessionInterface <;>
    simp [OnDestroySessionComplete, AfterHandlerUnsubscribe,
      ClearOnCompleteDelegate_Handle, SetDelegateHandle, hp, hl]

theorem NextHandleOf_Emit (e : Effect) (s : UMultiplayerSessionsSubsystem) :
    NextHandleOf (Emit e s) = NextHandleOf s := rfl

theorem NextHandleOf_Add (k : OpKind) (s : UMultiplayerSessionsSubsystem)
    (hav : s.SessionInterface.isSome = true) :
    NextHandleOf (AddOnCompleteDelegate_Handle k s) = NextHandleOf s + 1 := by
  cases hp : s.SessionInterface with
  | none => simp [hp] at hav
  | some p =>
    cases k <;> simp [NextHandleOf, AddOnCompleteDelegate_Handle, SetDelegateHandle, hp]

theorem NextHandleOf_Clear (k : OpKind) (s : UMultiplayerSessionsSubsystem) :
    NextHandleOf (ClearOnCompleteDelegate_Handle k s) = NextHandleOf s := by
  cases hp : s.SessionInterface <;> cases k <;>
    simp [NextHandleOf, ClearOnCompleteDelegate_Handle, SetDelegateHandle, hp]

theorem Leaked_isSome {k : OpKind} {h : Nat} {s : UMultiplayerSessionsSubsystem}
    (hl : Leaked k h s) : s.SessionInterface.isSome = true := by
  cases hp : s.SessionInterface with
  | none =>
    have := hl.1
    simp [Outstanding, hp] at this
  | some p => rfl

/-- A leaked subscription in `u` is one in `t` when `t` has the same delegates of the
kind, the same stored handle and the same next handle. -/
theorem Leaked_congr {k : OpKind} {h : Nat} {t u : UMultiplayerSessionsSubsystem}
    (h1 : Outstanding k t = Outstanding k u)
    (h2 : DelegateHandle k t = DelegateHandle k u)
    (h3 : NextHandleOf t = NextHandleOf u) (hl : Leaked k h u) : Leaked k h t := by
  unfold Leaked at hl ⊢
  rw [h1, h2, h3]
  exact hl

theorem Leaked_Emit {k : OpKind} {h : Nat} {s : UMultiplayerSessionsSubsystem}
    (e : Effect) (hl : Leaked k h s) : Leaked k h (Emit e s) :=
  Leaked_congr (Outstanding_Emit _ _ _) (DelegateHandle_Emit _ _ _) rfl hl

/-- Subscribing, of whatever kind, releases no leaked subscription. -/
theorem Leaked_Add {k : OpKind} {h : Nat} {s : UMultiplayerSessionsSubsystem}
    (k' : OpKind) (hl : Leaked k h s) : Leaked k h (AddOnCompleteDelegate_Handle k' s) := by
  have hav := Leaked_isSome hl
  obtain ⟨h1, h2, h3⟩ := hl
  refine ⟨?_, ?_, ?_⟩
  · rw [Outstanding_Add' _ _ _ hav]
    split
    · exact List.mem_append_left _ h1
    · exact h1
  · rw [DelegateHandle_Add' _ _ _ hav]
    split
    · intro he
      simp only [Option.some.injEq] at he
      omega
    · exact h2
  · rw [NextHandleOf_Add _ _ hav]
    omega

/-- Unsubscribing, of whatever kind, releases no leaked subscription: only the stored
handle is cleared. -/
theorem Leaked_Clear {k : OpKind} {h : Nat} {s : UMultiplayerSessionsSubsystem}
    (k' : OpKind) (hl : Leaked k h s) :
    Leaked k h (ClearOnCompleteDelegate_Handle k' s) := by
  have hav := Leaked_isSome hl
  obtain ⟨h1, h2, h3⟩ := hl
  refine ⟨?_, ?_, ?_⟩
  · rw [Outstanding_Clear]
    split
    · rename_i hk
      subst hk
      rw [List.mem_filter]
      refine ⟨h1, ?_⟩
      simp only [Bool.not_eq_true', decide_eq_false_iff_not]
      exact fun he => h2 he.symm
    · exact h1
  · rw [DelegateHandle_Clear' _ _ _ hav]
    split
    · simp
    · exact h2
  · rw [NextHandleOf_Clear]
    exact h3

theorem FindSessions_eq (n : Int) (s : UMultiplayerSessionsSubsystem)
    (p : IOnlineSession) (hp : s.SessionInterface = some p) :
    FindSessions n s =
      if !p.FindSessionsReturns then
        Emit (Effect.FindSessionsComplete [] false)
          (ClearOnCompleteDelegate_Handle OpKind.Find
            (Emit (Effect.CallFindSessions (MakeSessionSearch p.SubsystemName n))
              (StoreSearch (MakeSessionSearch p.SubsystemName n)
                (AddOnCompleteDelegate_Handle OpKind.Find s))))
      else
        Emit (Effect.CallFindSessions (MakeSessionSearch p.SubsystemName n))
          (StoreSearch (MakeSessionSearch p.SubsystemName n)
            (AddOnCompleteDelegate_Handle OpKind.Find s)) := by
  simp only [FindSessions, hp]
  rfl

theorem JoinSession_eq (r : FOnlineSessionSearchResult)
    (s : UMultiplayerSessionsSubsystem) (p : IOnlineSession)
    (hp : s.SessionInterface = some p) :
    JoinSession r s =
      if !p.JoinSessionReturns then
        Emit (Effect.JoinSessionComplete EOnJoinSessionCompleteResult.UnknownError)
          (ClearOnCompleteDelegate_Handle OpKind.Join
            (Emit (Effect.CallJoinSession r)
              (AddOnCompleteDelegate_Handle OpKind.Join s)))
      else
        Emit (Effect.CallJoinSession r) (AddOnCompleteDelegate_Handle OpKind.Join s) := by
  simp only [JoinSession, hp]

theorem Leaked_StoreSearch {k : OpKind} {h : Nat} {s : UMultiplayerSessionsSubsystem}
    (q : FOnlineSessionSearch) (hl : Leaked k h s) : Leaked k h (StoreSearch q s) :=
  Leaked_congr rfl (DelegateHandle_StoreSearch _ _ _) rfl hl

theorem Leaked_StoreSettings {k : OpKind} {h : Nat} {s : UMultiplayerSessionsSubsystem}
    (q : FOnlineSessionSettings) (hl : Leaked k h s) : Leaked k h (StoreSettings q s) :=
  Leaked_congr rfl (DelegateHandle_StoreSettings _ _ _) rfl hl

theorem Leaked_StoreIntent {k : OpKind} {h : Nat} {s : UMultiplayerSessionsSubsystem}
    (C : Int) (M : String) (hl : Leaked k h s) : Leaked k h (StoreIntent C M s) :=
  Leaked_congr rfl (DelegateHandle_StoreIntent _ _ _ _) rfl hl

theorem Leaked_ResetIntent {k : OpKind} {h : Nat} {s : UMultiplayerSessionsSubsystem}
    (hl : Leaked k h s) : Leaked k h (ResetIntent s) :=
  Leaked_congr rfl (DelegateHandle_ResetIntent _ _) rfl hl

theorem Leaked_FindSessions {k : OpKind} {h : Nat} {s : UMultiplayerSessionsSubsystem}
    (n : Int) (hl : Leaked k h s) : Leaked k h (FindSessions n s) := by
  cases hp : s.SessionInterface with
  | none => simpa [FindSessions, hp] using hl
  | some p =>
    rw [FindSessions_eq n s p hp]
    cases hr : p.FindSessionsReturns
    · exact Leaked_Emit _ (Leaked_Clear _ (Leaked_Emit _ (Leaked_StoreSearch _
        (Leaked_Add _ hl))))
    · exact Leaked_Emit _ (Leaked_StoreSearch _ (Leaked_Add _ hl))

theorem Leaked_JoinSession {k : OpKind} {h : Nat} {s : UMultiplayerSessionsSubsystem}
    (r : FOnlineSessionSearchResult) (hl : Leaked k h s) : Leaked k h (JoinSession r s) := by
  cases hp : s.SessionInterface with
  | none => exact absurd (Leaked_isSome hl) (by simp [hp])
  | some p =>
    rw [JoinSession_eq r s p hp]
    cases hr : p.JoinSessionReturns
    · exact Leaked_Emit _ (Leaked_Clear _ (Leaked_Emit _ (Leaked_Add _ hl)))
    · exact Leaked_Emit _ (Leaked_Add _ hl)

theorem Leaked_DestroySession {k : OpKind} {h : Nat} {s : UMultiplayerSessionsSubsystem}
    (hl : Leaked k h s) : Leaked k h (DestroySession s) := by
  cases hp : s.SessionInterface with
  | none => exact absurd (Leaked_isSome hl) (by simp [hp])
  | some p =>
    rw [DestroySession_eq s p hp]
    cases hr : p.DestroySessionReturns
    · exact Leaked_Emit _ (Leaked_Clear _ (Leaked_Emit _ (Leaked_Add _ hl)))
    · exact Leaked_Emit _ (Leaked_Add _ hl)

theorem Leaked_CreateTail {k : OpKind} {h : Nat} {s : UMultiplayerSessionsSubsystem}
    (name : String) (ret : Bool) (C : Int) (M : String) (hl : Leaked k h s) :
    Leaked k h (CreateTail name ret C M s) := by
  unfold CreateTail
  cases ret
  · exact Leaked_Emit _ (Leaked_Clear _ (Leaked_Emit _ (Leaked_StoreSettings _
      (Leaked_Add _ hl))))
  · exact Leaked_Emit _ (Leaked_StoreSettings _ (Leaked_Add _ hl))

theorem Leaked_CreateSession {k : OpKind} {h : Nat} {s : UMultiplayerSessionsSubsystem}
    (C : Int) (M : String) (hl : Leaked k h s) : Leaked k h (CreateSession C M s) := by
  cases hp : s.SessionInterface with
  | none => simpa [CreateSession, hp] using hl
  | some p =>
    rw [CreateSession_eq C M s p hp]
    apply Leaked_CreateTail
    cases hn : p.NamedSession
    · exact hl
    · exact Leaked_DestroySession (Leaked_StoreIntent _ _ hl)

theorem Leaked_handler {k : OpKind} {h : Nat} {s : UMultiplayerSessionsSubsystem}
    (k' : OpKind) (e : Effect) (hl : Leaked k h s) :
    Leaked k h (Emit e (AfterHandlerUnsubscribe k' s)) := by
  rw [AfterHandlerUnsubscribe_eq]
  exact Leaked_Emit _ (Leaked_Clear _ hl)

theorem Leaked_ProviderChange {k : OpKind} {h : Nat} {s : UMultiplayerSessionsSubsystem}
    (ns cr fr jr dr : Bool) (rs : List FOnlineSessionSearchResult) (hl : Leaked k h s) :
    Leaked k h (ProviderChange ns cr fr jr dr rs s) := by
  refine Leaked_congr ?_ ?_ ?_ hl
  · cases hp : s.SessionInterface <;> simp [Outstanding, ProviderChange, hp]
  · cases k <;> rfl
  · cases hp : s.SessionInterface <;> simp [NextHandleOf, ProviderChange, hp]

/-- No step whatever releases a leaked subscription. -/
theorem Leaked_Step {k : OpKind} {h : Nat} (a : Action)
    (s s' : UMultiplayerSessionsSubsystem) (hl : Leaked k h s)
    (hs : Step a s = some s') : Leaked k h s' := by
  cases a with
  | CreateSession C M =>
    simp only [Step, Option.some.injEq] at hs
    subst hs
    exact Leaked_CreateSession _ _ hl
  | FindSessions n =>
    simp only [Step, Option.some.injEq] at hs
    subst hs
    exact Leaked_FindSessions _ hl
  | JoinSession r =>
    simp only [Step, Option.some.injEq] at hs
    subst hs
    exact Leaked_JoinSession _ hl
  | DestroySession =>
    simp only [Step, Option.some.injEq] at hs
    subst hs
    exact Leaked_DestroySession hl
  | StartSession =>
    simp only [Step, Option.some.injEq] at hs
    subst hs
    exact hl
  | OnCreateSessionComplete b =>
    simp only [Step, Option.some.injEq] at hs
    subst hs
    exact Leaked_handler _ _ hl
  | OnFindSessionsComplete b =>
    simp only [Step, OnFindSessionsComplete] at hs
    split at hs
    · exact absurd hs (by simp)
    · split at hs <;>
        (simp only [Option.some.injEq] at hs
         subst hs
         exact Leaked_handler _ _ hl)
  | OnJoinSessionComplete c =>
    simp only [Step, Option.some.injEq] at hs
    subst hs
    exact Leaked_handler _ _ hl
  | OnDestroySessionComplete b =>
    simp only [Step, Option.some.injEq] at hs
    subst hs
    have hb : OnDestroySessionComplete b s =
        Emit (Effect.DestroySessionComplete b)
          (if (b && (ClearOnCompleteDelegate_Handle OpKind.Destroy s).bCreateSessionOnDestroy)
            then CreateSession
              (ClearOnCompleteDelegate_Handle OpKind.Destroy s).LastNumPublicConnections
              (ClearOnCompleteDelegate_Handle OpKind.Destroy s).LastMatchType
              (ResetIntent (ClearOnCompleteDelegate_Handle OpKind.Destroy s))
            else ClearOnCompleteDelegate_Handle OpKind.Destroy s) := by
      rw [← AfterHandlerUnsubscribe_eq]
      rfl
    rw [hb]
    apply Leaked_Emit
    split
    · exact Leaked_CreateSession _ _ (Leaked_ResetIntent (Leaked_Clear _ hl))
    · exact Leaked_Clear _ hl
  | OnStartSessionComplete b =>
    simp only [Step, Option.some.injEq] at hs
    subst hs
    exact hl
  | Provider ns cr fr jr dr rs =>
    simp only [Step, Option.some.injEq] at hs
    subst hs
    exact Leaked_ProviderChange _ _ _ _ _ _ hl

/-- No run whatever releases a leaked subscription. -/
theorem Leaked_Run {k : OpKind} {h : Nat} (acts : List Action)
    (s s' : UMultiplayerSessionsSubsystem) (hl : Leaked k h s)
    (hr : Run Always acts s = some s') : Leaked k h s' := by
  induction acts generalizing s with
  | nil =>
    simp only [Run, Option.some.injEq] at hr
    subst hr
    exact hl
  | cons a rest ih =>
    simp only [Run, Always, if_true] at hr
    cases hs : Step a s with
    | none => simp [hs] at hr
    | some s1 =>
      simp only [hs] at hr
      exact ih s1 (Leaked_Step a s s1 hl hs) hr

theorem NextHandleOf_some (s : UMultiplayerSessionsSubsystem) (p : IOnlineSession)
    (hp : s.SessionInterface = some p) : NextHandleOf s = p.NextHandle := by
  simp [NextHandleOf, hp]

theorem lifecycle_FindSessions (n : Int) (s : UMultiplayerSessionsSubsystem)
    (p : IOnlineSession) (hp : s.SessionInterface = some p)
    (h0 : Outstanding OpKind.Find s = []) :
    IdleLifecycle OpKind.Find p.FindSessionsReturns p.NextHandle
      (Effect.CallFindSessions (MakeSessionSearch p.SubsystemName n))
      (Effect.FindSessionsComplete [] false) s (FindSessions n s) := by
  have hav : s.SessionInterface.isSome = true := by simp [hp]
  have hn := NextHandleOf_some s p hp
  refine ⟨fun hr => ⟨?_, ?_⟩, fun hr => ⟨?_, ?_, ?_⟩⟩
  · rw [FindSessions_eq n s p hp]
    simp [hr, Outstanding_Emit, DelegateHandle_Emit, Outstanding_Clear,
      Outstanding_Add', DelegateHandle_Add', Outstanding_StoreSearch,
      DelegateHandle_StoreSearch, hav, h0]
  · simp [FindSessions, AddOnCompleteDelegate_Handle, ClearOnCompleteDelegate_Handle,
      SetDelegateHandle, DelegateHandle, Emit, hp, hr]
  · rw [FindSessions_eq n s p hp]
    simp [hr, Outstanding_Emit, Outstanding_Add', Outstanding_StoreSearch, hav, h0, hn]
  · rw [FindSessions_eq n s p hp]
    simp [hr, DelegateHandle_Emit, DelegateHandle_Add', DelegateHandle_StoreSearch,
      hav, hn]
  · simp [FindSessions, AddOnCompleteDelegate_Handle, SetDelegateHandle, Emit, hp, hr]

theorem lifecycle_JoinSession (r : FOnlineSessionSearchResult)
    (s : UMultiplayerSessionsSubsystem)
    (p : IOnlineSession) (hp : s.SessionInterface = some p)
    (h0 : Outstanding OpKind.Join s = []) :
    IdleLifecycle OpKind.Join p.JoinSessionReturns p.NextHandle
      (Effect.CallJoinSession r)
      (Effect.JoinSessionComplete EOnJoinSessionCompleteResult.UnknownError)
      s (JoinSession r s) := by
  have hav : s.SessionInterface.isSome = true := by simp [hp]
  have hn := NextHandleOf_some s p hp
  refine ⟨fun hr => ⟨?_, ?_⟩, fun hr => ⟨?_, ?_, ?_⟩⟩
  · rw [JoinSession_eq r s p hp]
    simp [hr, Outstanding_Emit, DelegateHandle_Emit, Outstanding_Clear,
      Outstanding_Add', DelegateHandle_Add', hav, h0]
  · simp [JoinSession, AddOnCompleteDelegate_Handle, ClearOnCompleteDelegate_Handle,
      SetDelegateHandle, DelegateHandle, Emit, hp, hr]
  · rw [JoinSession_eq r s p hp]
    simp [hr, Outstanding_Emit, Outstanding_Add', hav, h0, hn]
  · rw [JoinSession_eq r s p hp]
    simp [hr, DelegateHandle_Emit, DelegateHandle_Add', hav, hn]
  · simp [JoinSession, AddOnCompleteDelegate_Handle, SetDelegateHandle, Emit, hp, hr]

theorem lifecycle_DestroySession (s : UMultiplayerSessionsSubsystem)
    (p : IOnlineSession) (hp : s.SessionInterface = some p)
    (h0 : Outstanding OpKind.Destroy s = []) :
    IdleLifecycle OpKind.Destroy p.DestroySessionReturns p.NextHandle
      Effect.CallDestroySession (Effect.DestroySessionComplete false)
      s (DestroySession s) := by
  have hav : s.SessionInterface.isSome = true := by simp [hp]
  have hn := NextHandleOf_some s p hp
  refine ⟨fun hr => ⟨?_, ?_⟩, fun hr => ⟨?_, ?_, ?_⟩⟩
  · rw [DestroySession_eq s p hp]
    simp [hr, Outstanding_Emit, DelegateHandle_Emit, Outstanding_Clear,
      Outstanding_Add', DelegateHandle_Add', hav, h0]
  · simp [DestroySession, AddOnCompleteDelegate_Handle, ClearOnCompleteDelegate_Handle,
      SetDelegateHandle, DelegateHandle, Emit, hp, hr]
  · rw [DestroySession_eq s p hp]
    simp [hr, Outstanding_Emit, Outstanding_Add', hav, h0, hn]
  · rw [DestroySession_eq s p hp]
    simp [hr, DelegateHandle_Emit, DelegateHandle_Add', hav, hn]
  · simp [DestroySession, AddOnCompleteDelegate_Handle, SetDelegateHandle, Emit, hp, hr]

theorem lifecycle_CreateSession (C : Int) (M : String)
    (s : UMultiplayerSessionsSubsystem)
    (p : IOnlineSession) (hp : s.SessionInterface = some p)
    (hs : p.NamedSession = false)
    (h0 : Outstanding OpKind.Create s = []) :
    IdleLifecycle OpKind.Create p.CreateSessionReturns p.NextHandle
      (Effect.CallCreateSession (MakeSessionSettings p.SubsystemName C M))
      (Effect.CreateSessionComplete false) s (CreateSession C M s) := by
  have hav : s.SessionInterface.isSome = true := by simp [hp]
  have hn := NextHandleOf_some s p hp
  refine ⟨fun hr => ⟨?_, ?_⟩, fun hr => ⟨?_, ?_, ?_⟩⟩
  · rw [CreateSession_eq C M s p hp]
    simp [CreateTail, hs, hr, Outstanding_Emit, DelegateHandle_Emit, Outstanding_Clear,
      Outstanding_Add', DelegateHandle_Add', Outstanding_StoreSettings,
      DelegateHandle_StoreSettings, hav, h0]
  · simp [CreateSession, AddOnCompleteDelegate_Handle, ClearOnCompleteDelegate_Handle,
      SetDelegateHandle, DelegateHandle, Emit, hp, hs, hr]
  · rw [CreateSession_eq C M s p hp]
    simp [CreateTail, hs, hr, Outstanding_Emit, Outstanding_Add',
      Outstanding_StoreSettings, hav, h0, hn]
  · rw [CreateSession_eq C M s p hp]
    simp [CreateTail, hs, hr, DelegateHandle_Emit, DelegateHandle_Add',
      DelegateHandle_StoreSettings, hav, hn]
  · simp [CreateSession, AddOnCompleteDelegate_Handle, SetDelegateHandle, Emit,
      hp, hs, hr]

/-- A delegate registered under an earlier handle is leaked once a new handle of the
same kind has been subscribed. -/
theorem Leaked_after_Add (k : OpKind) (s : UMultiplayerSessionsSubsystem)
    (p : IOnlineSession) (hp : s.SessionInterface = some p) (h0 : Nat)
    (hm : h0 ∈ Outstanding k s) (hlt : h0 < p.NextHandle) :
    Leaked k h0 (AddOnCompleteDelegate_Handle k s) := by
  have hav : s.SessionInterface.isSome = true := by simp [hp]
  have hn := NextHandleOf_some s p hp
  refine ⟨?_, ?_, ?_⟩
  · rw [Outstanding_Add' _ _ _ hav, if_pos rfl]
    exact List.mem_append_left _ hm
  · rw [DelegateHandle_Add' _ _ _ hav, if_pos rfl, hn]
    intro he
    simp only [Option.some.injEq] at he
    omega
  · rw [NextHandleOf_Add _ _ hav, hn]
    omega

theorem unguarded_FindSessions (n : Int) (s : UMultiplayerSessionsSubsystem)
    (p : IOnlineSession) (hp : s.SessionInterface = some p)
    (hr : p.FindSessionsReturns = true) :
    UnguardedCall OpKind.Find p.NextHandle s (FindSessions n s) := by
  have hav : s.SessionInterface.isSome = true := by simp [hp]
  have hn := NextHandleOf_some s p hp
  rw [FindSessions_eq n s p hp]
  simp only [hr, Bool.not_true, Bool.false_eq_true, if_false]
  refine ⟨?_, ?_, fun h0 hm hlt => ?_⟩
  · simp [Outstanding_Emit, Outstanding_Add', Outstanding_StoreSearch, hav, hn]
  · simp [DelegateHandle_Emit, DelegateHandle_Add', DelegateHandle_StoreSearch, hav, hn]
  · exact Leaked_Emit _ (Leaked_StoreSearch _ (Leaked_after_Add _ s p hp h0 hm hlt))

theorem unguarded_JoinSession (r : FOnlineSessionSearchResult)
    (s : UMultiplayerSessionsSubsystem)
    (p : IOnlineSession) (hp : s.SessionInterface = some p)
    (hr : p.JoinSessionReturns = true) :
    UnguardedCall OpKind.Join p.NextHandle s (JoinSession r s) := by
  have hav : s.SessionInterface.isSome = true := by simp [hp]
  have hn := NextHandleOf_some s p hp
  rw [JoinSession_eq r s p hp]
  simp only [hr, Bool.not_true, Bool.false_eq_true, if_false]
  refine ⟨?_, ?_, fun h0 hm hlt => ?_⟩
  · simp [Outstanding_Emit, Outstanding_Add', hav, hn]
  · simp [DelegateHandle_Emit, DelegateHandle_Add', hav, hn]
  · exact Leaked_Emit _ (Leaked_after_Add _ s p hp h0 hm hlt)

theorem unguarded_DestroySession (s : UMultiplayerSessionsSubsystem)
    (p : IOnlineSession) (hp : s.SessionInterface = some p)
    (hr : p.DestroySessionReturns = true) :
    UnguardedCall OpKind.Destroy p.NextHandle s (DestroySession s) := by
  have hav : s.SessionInterface.isSome = true := by simp [hp]
  have hn := NextHandleOf_some s p hp
  rw [DestroySession_eq s p hp]
  simp only [hr, Bool.not_true, Bool.false_eq_true, if_false]
  refine ⟨?_, ?_, fun h0 hm hlt => ?_⟩
  · simp [Outstanding_Emit, Outstanding_Add', hav, hn]
  · simp [DelegateHandle_Emit, DelegateHandle_Add', hav, hn]
  · exact Leaked_Emit _ (Leaked_after_Add _ s p hp h0 hm hlt)

theorem unguarded_CreateSession (C : Int) (M : String)
    (s : UMultiplayerSessionsSubsystem)
    (p : IOnlineSession) (hp : s.SessionInterface = some p)
    (hs : p.NamedSession = false) (hr : p.CreateSessionReturns = true) :
    UnguardedCall OpKind.Create p.NextHandle s (CreateSession C M s) := by
  have hav : s.SessionInterface.isSome = true := by simp [hp]
  have hn := NextHandleOf_some s p hp
  rw [CreateSession_eq C M s p hp]
  simp only [CreateTail, hs, hr, Bool.not_true, Bool.false_eq_true, if_false]
  refine ⟨?_, ?_, fun h0 hm hlt => ?_⟩
  · simp [Outstanding_Emit, Outstanding_Add', Outstanding_StoreSettings, hav, hn]
  · simp [DelegateHandle_Emit, DelegateHandle_Add', DelegateHandle_StoreSettings, hav, hn]
  · exact Leaked_Emit _ (Leaked_StoreSettings _ (Leaked_after_Add _ s p hp h0 hm hlt))

/-- C1 (evaluation at the failing input): with the provider available and a session
existing, `CreateSession(4, "Deathmatch")` latches the intent and calls
`DestroySession`, and then, in the same invocation, goes on to subscribe a
create-completion handle and to call the provider's `CreateSession`. -/
theorem create_with_existing_session_falls_through :
    (CreateSession 4 "Deathmatch" (Subsystem0 (some (Provider0 true)))).Log =
        [Effect.Subscribe OpKind.Destroy 0,
         Effect.CallDestroySession,
         Effect.Subscribe OpKind.Create 1,
         Effect.CallCreateSession (MakeSessionSettings "NULL" 4 "Deathmatch")] ∧
      (CreateSession 4 "Deathmatch"
          (Subsystem0 (some (Provider0 true)))).CreateSessionCompleteDelegateHandle =
        some 1 ∧
      (CreateSession 4 "Deathmatch"
          (Subsystem0 (some (Provider0 true)))).bCreateSessionOnDestroy = true := by
  decide

/-! ## CreateSession while no session exists -/

/-- C2: for every capacity `C` (in particular `C > 0`) and match type `M`, when the
provider is available and no session with the well-known identity exists,
`CreateSession C M` logs no provider destroy call and one provider create call, whose
settings carry `NumPublicConnections = C`, the entry `MatchType = M`, and LAN mode
exactly when the subsystem name is `"NULL"`.  If the provider rejects the call the
log ends with the single `CreateSessionComplete(false)`; if it accepts, nothing is
broadcast by the call and the completion handler, given `success`, adds the single
`CreateSessionComplete(success)`. -/
theorem create_without_session (s : UMultiplayerSessionsSubsystem) (p : IOnlineSession)
    (C : Int) (M : String) (hp : s.SessionInterface = some p)
    (hn : p.NamedSession = false) :
    (MakeSessionSettings p.SubsystemName C M).NumPublicConnections = C ∧
    (MakeSessionSettings p.SubsystemName C M).Settings = [("MatchType", M)] ∧
    ((MakeSessionSettings p.SubsystemName C M).bIsLANMatch = true ↔
      p.SubsystemName = "NULL") ∧
    (p.CreateSessionReturns = false →
      (CreateSession C M s).Log = s.Log ++
        [Effect.Subscribe OpKind.Create p.NextHandle,
         Effect.CallCreateSession (MakeSessionSettings p.SubsystemName C M),
         Effect.Unsubscribe OpKind.Create (some p.NextHandle),
         Effect.CreateSessionComplete false]) ∧
    (p.CreateSessionReturns = true →
      (CreateSession C M s).Log = s.Log ++
        [Effect.Subscribe OpKind.Create p.NextHandle,
         Effect.CallCreateSession (MakeSessionSettings p.SubsystemName C M)] ∧
      ∀ success : Bool,
        (OnCreateSessionComplete success (CreateSession C M s)).Log = s.Log ++
          [Effect.Subscribe OpKind.Create p.NextHandle,
           Effect.CallCreateSession (MakeSessionSettings p.SubsystemName C M),
           Effect.Unsubscribe OpKind.Create (some p.NextHandle),
           Effect.CreateSessionComplete success]) := by
  refine ⟨rfl, rfl, ?_, ?_, ?_⟩
  · simp [MakeSessionSettings]
  · intro hr
    simp [CreateSession, AddOnCompleteDelegate_Handle, ClearOnCompleteDelegate_Handle,
      SetDelegateHandle, DelegateHandle, Emit, hp, hn, hr]
  · intro hr
    refine ⟨?_, fun success => ?_⟩ <;>
    simp [CreateSession, OnCreateSessionComplete, AddOnCompleteDelegate_Handle,
      ClearOnCompleteDelegate_Handle, SetDelegateHandle, DelegateHandle, Emit, hp, hn, hr]

/-- Witness of `create_without_session`: the scenario `CreateSession(4, "Deathmatch")`
with no existing session, the call accepted, then `CreateComplete(true)`. -/
theorem create_without_session_witness :
    (CreateSession 4 "Deathmatch" (Subsystem0 (some (Provider0 false)))).Log =
        [Effect.Subscribe OpKind.Create 0,
         Effect.CallCreateSession (MakeSessionSettings "NULL" 4 "Deathmatch")] ∧
      (OnCreateSessionComplete true
          (CreateSession 4 "Deathmatch" (Subsystem0 (some (Provider0 false))))).Log =
        [Effect.Subscribe OpKind.Create 0,
         Effect.CallCreateSession (MakeSessionSettings "NULL" 4 "Deathmatch"),
         Effect.Unsubscribe OpKind.Create (some 0),
         Effect.CreateSessionComplete true] := by
  have h := (create_without_session (Subsystem0 (some (Provider0 false)))
    (Provider0 false) 4 "Deathmatch" rfl rfl).2.2.2.2 rfl
  exact ⟨h.1, h.2 true⟩

/-! ## The destroy-completion handler -/

/-- C4: whenever a search is stored, with result sequence `R`, the find-completion
handler returns, and what it adds to the log ends with its single
`FindSessionsComplete` broadcast: `(empty, false)` when `R` is empty, whatever the
provider's flag (also `true`), and `(R, success)` verbatim when `R` is not empty.
Before the broadcast it adds only the guarded unsubscribe. -/
theorem find_complete_broadcast (s : UMultiplayerSessionsSubsystem)
    (search : FOnlineSessionSearch) (R : List FOnlineSessionSearchResult)
    (success : Bool) (hs : s.LastSessionSearch = some search)
    (hR : search.SearchResults = R) :
    ∃ s', OnFindSessionsComplete success s = some s' ∧
      (R = [] → s'.Log = s.Log ++ HandlerUnsubscribe OpKind.Find s ++
          [Effect.FindSessionsComplete [] false]) ∧
      (R ≠ [] → s'.Log = s.Log ++ HandlerUnsubscribe OpKind.Find s ++
          [Effect.FindSessionsComplete R success]) ∧
      (Notifications OpKind.Find s'.Log).length =
        (Notifications OpKind.Find s.Log).length + 1 := by
  subst hR
  cases hp : s.SessionInterface <;> cases hl : search.SearchResults <;>
    simp [OnFindSessionsComplete, ClearOnCompleteDelegate_Handle, SetDelegateHandle,
      DelegateHandle, Emit, HandlerUnsubscribe, Notifications, IsNotification,
      List.filter_append, hs, hp, hl]

/-- Witness of `find_complete_broadcast`: a stored search with one result, provider
flag `false`. -/
theorem find_complete_broadcast_witness :
    ∃ s', OnFindSessionsComplete false
        { Subsystem0 (some (Provider0 false)) with
          LastSessionSearch := some { MakeSessionSearch "NULL" 10 with
            SearchResults := [⟨7, "Deathmatch"⟩] } } = some s' ∧
      s'.Log = [Effect.Unsubscribe OpKind.Find none,
        Effect.FindSessionsComplete [⟨7, "Deathmatch"⟩] false] := by
  obtain ⟨s', h1, _, h3, _⟩ := find_complete_broadcast
    { Subsystem0 (some (Provider0 false)) with
      LastSessionSearch := some { MakeSessionSearch "NULL" 10 with
        SearchResults := [⟨7, "Deathmatch"⟩] } }
    { MakeSessionSearch "NULL" 10 with SearchResults := [⟨7, "Deathmatch"⟩] }
    [⟨7, "Deathmatch"⟩] false rfl rfl
  exact ⟨s', h1, h3 (by simp)⟩

/-! ## Notifications per operation -/

/-- C5 (as stated, refuted): `StartSession` broadcasts nothing and calls nothing, and
its completion handler broadcasts nothing either: an invocation of `StartSession`
yields no `StartSessionComplete` notification at all. -/
theorem every_operation_notifies_counterexample :
    (StartSession (Subsystem0 (some (Provider0 false)))).Log = [] ∧
      (OnStartSessionComplete true
        (StartSession (Subsystem0 (some (Provider0 false))))).Log = [] ∧
      Notifications OpKind.Start
        (OnStartSessionComplete true
          (StartSession (Subsystem0 (some (Provider0 false))))).Log = [] := by
  decide

/-- C5 (amended): `StartSession` and its handler never broadcast.  `JoinSession` and
`DestroySession` with no provider broadcast exactly one notification of their kind.
With a provider, a rejected create (no session existing), find, join or destroy
broadcasts exactly one notification of its kind inside the call; an accepted one
broadcasts none inside the call, and its completion handler, run in any later state
`t`, broadcasts exactly one (for destroy: when no create is chained; for find: a
search is stored after `FindSessions`, so the handler returns). -/
theorem operation_notifications (s t : UMultiplayerSessionsSubsystem) :
    (StartSession s = s ∧ ∀ b, OnStartSessionComplete b s = s) ∧
    (s.SessionInterface = none → ∀ r : FOnlineSessionSearchResult,
      Notifications OpKind.Join (JoinSession r s).Log = Notifications OpKind.Join s.Log ++
        [Effect.JoinSessionComplete EOnJoinSessionCompleteResult.UnknownError] ∧
      Notifications OpKind.Destroy (DestroySession s).Log =
        Notifications OpKind.Destroy s.Log ++ [Effect.DestroySessionComplete false]) ∧
    (∀ p, s.SessionInterface = some p →
      (p.NamedSession = false → ∀ (C : Int) (M : String),
        Notifications OpKind.Create (CreateSession C M s).Log =
          Notifications OpKind.Create s.Log ++
            (if p.CreateSessionReturns = true then []
              else [Effect.CreateSessionComplete false])) ∧
      (∀ n : Int,
        Notifications OpKind.Find (FindSessions n s).Log =
          Notifications OpKind.Find s.Log ++
            (if p.FindSessionsReturns = true then []
              else [Effect.FindSessionsComplete [] false]) ∧
        (FindSessions n s).LastSessionSearch.isSome = true) ∧
      (∀ r : FOnlineSessionSearchResult,
        Notifications OpKind.Join (JoinSession r s).Log =
          Notifications OpKind.Join s.Log ++
            (if p.JoinSessionReturns = true then []
              else [Effect.JoinSessionComplete EOnJoinSessionCompleteResult.UnknownError])) ∧
      Notifications OpKind.Destroy (DestroySession s).Log =
        Notifications OpKind.Destroy s.Log ++
          (if p.DestroySessionReturns = true then []
            else [Effect.DestroySessionComplete false])) ∧
    (∀ b, Notifications OpKind.Create (OnCreateSessionComplete b t).Log =
      Notifications OpKind.Create t.Log ++ [Effect.CreateSessionComplete b]) ∧
    (∀ b search, t.LastSessionSearch = some search →
      ∃ t', OnFindSessionsComplete b t = some t' ∧
        (Notifications OpKind.Find t'.Log).length =
          (Notifications OpKind.Find t.Log).length + 1) ∧
    (∀ code, Notifications OpKind.Join (OnJoinSessionComplete code t).Log =
      Notifications OpKind.Join t.Log ++ [Effect.JoinSessionComplete code]) ∧
    (∀ b, ¬ (b = true ∧ t.bCreateSessionOnDestroy = true) →
      Notifications OpKind.Destroy (OnDestroySessionComplete b t).Log =
        Notifications OpKind.Destroy t.Log ++ [Effect.DestroySessionComplete b]) := by
  refine ⟨⟨rfl, fun _ => rfl⟩, ?_, ?_, ?_, ?_, ?_, ?_⟩
  · intro hp r
    simp [JoinSession, DestroySession, Emit, hp, Notifications, IsNotification]
  · intro p hp
    refine ⟨?_, ?_, ?_, ?_⟩
    · intro hn C M
      cases hc : p.CreateSessionReturns <;>
        simp [CreateSession, AddOnCompleteDelegate_Handle, ClearOnCompleteDelegate_Handle,
          SetDelegateHandle, DelegateHandle, Emit, Notifications, IsNotification,
          hp, hn, hc]
    · intro n
      cases hc : p.FindSessionsReturns <;>
        simp [FindSessions, AddOnCompleteDelegate_Handle, ClearOnCompleteDelegate_Handle,
          SetDelegateHandle, DelegateHandle, Emit, Notifications, IsNotification, hp, hc]
    · intro r
      cases hc : p.JoinSessionReturns <;>
        simp [JoinSession, AddOnCompleteDelegate_Handle, ClearOnCompleteDelegate_Handle,
          SetDelegateHandle, DelegateHandle, Emit, Notifications, IsNotification, hp, hc]
    · cases hc : p.DestroySessionReturns <;>
        simp [DestroySession, AddOnCompleteDelegate_Handle, ClearOnCompleteDelegate_Handle,
          SetDelegateHandle, DelegateHandle, Emit, Notifications, IsNotification, hp, hc]
  · intro b
    cases hp : t.SessionInterface <;>
      simp [OnCreateSessionComplete, ClearOnCompleteDelegate_Handle, SetDelegateHandle,
        DelegateHandle, Emit, Notifications, IsNotification, hp]
  · intro b search hs
    cases hp : t.SessionInterface <;> cases hl : search.SearchResults <;>
      simp [OnFindSessionsComplete, ClearOnCompleteDelegate_Handle, SetDelegateHandle,
        DelegateHandle, Emit, Notifications, IsNotification, List.filter_append,
        hs, hp, hl]
  · intro code
    cases hp : t.SessionInterface <;>
      simp [OnJoinSessionComplete, ClearOnCompleteDelegate_Handle, SetDelegateHandle,
        DelegateHandle, Emit, Notifications, IsNotification, hp]
  · intro b hb
    have hc : (b && t.bCreateSessionOnDestroy) = false := by
      cases b <;> cases hl : t.bCreateSessionOnDestroy <;> simp_all
    cases hp : t.SessionInterface <;>
      simp [OnDestroySessionComplete, ClearOnCompleteDelegate_Handle, SetDelegateHandle,
        DelegateHandle, Emit, Notifications, IsNotification, hp, hc]

/-- Witness of `operation_notifications`: a find that is accepted and completed with
one result, and a join with no provider. -/
theorem operation_notifications_witness :
    Notifications OpKind.Find (FindSessions 10 (Subsystem0 (some (Provider0 false)))).Log =
        [] ∧
      Notifications OpKind.Join (JoinSession ⟨7, "Deathmatch"⟩ (Subsystem0 none)).Log =
        [Effect.JoinSessionComplete EOnJoinSessionCompleteResult.UnknownError] ∧
      Notifications OpKind.Create
          (OnCreateSessionComplete true (Subsystem0 (some (Provider0 false)))).Log =
        [Effect.CreateSessionComplete true] := by
  refine ⟨?_, ?_, ?_⟩
  · exact ((operation_notifications (Subsystem0 (some (Provider0 false)))
      (Subsystem0 none)).2.2.1 (Provider0 false) rfl).2.1 10 |>.1
  · exact ((operation_notifications (Subsystem0 none) (Subsystem0 none)).2.1 rfl
      ⟨7, "Deathmatch"⟩).1
  · exact (operation_notifications (Subsystem0 none)
      (Subsystem0 (some (Provider0 false)))).2.2.2.1 true

/-! ## JoinSession and DestroySession without a provider -/

/-- C6: with no provider available, `JoinSession r` only appends the broadcast
`JoinSessionComplete(UnknownError)` to the log and `DestroySession` only appends
`DestroySessionComplete(false)`: nothing is subscribed, no provider operation is
called, and handles, latch and saved pair are unchanged. -/
theorem no_provider_join_destroy (s : UMultiplayerSessionsSubsystem)
    (r : FOnlineSessionSearchResult) (h : s.SessionInterface = none) :
    JoinSession r s =
        { s with Log := s.Log ++
            [Effect.JoinSessionComplete EOnJoinSessionCompleteResult.UnknownError] } ∧
      DestroySession s =
        { s with Log := s.Log ++ [Effect.DestroySessionComplete false] } := by
  simp [JoinSession, DestroySession, Emit, h]

/-- Witness of `no_provider_join_destroy` on the freshly constructed subsystem. -/
theorem no_provider_join_destroy_witness :
    (Subsystem0 none).SessionInterface = none ∧
      JoinSession ⟨7, "Deathmatch"⟩ (Subsystem0 none) =
        { Subsystem0 none with Log := (Subsystem0 none).Log ++
            [Effect.JoinSessionComplete EOnJoinSessionCompleteResult.UnknownError] } ∧
      DestroySession (Subsystem0 none) =
        { Subsystem0 none with Log := (Subsystem0 none).Log ++
            [Effect.DestroySessionComplete false] } :=
  ⟨rfl, no_provider_join_destroy (Subsystem0 none) ⟨7, "Deathmatch"⟩ rfl⟩

/-! ## Synchronous rejection -/

/-- C7: when the provider is available and synchronously rejects the call, each of
create, find, join and destroy ends with: subscribe a handle, call the provider,
unsubscribe that same handle, broadcast the failure notification
(`CreateSessionComplete(false)`, `FindSessionsComplete(empty, false)`,
`JoinSessionComplete(UnknownError)`, `DestroySessionComplete(false)`), all inside the
call itself and with the handle no longer registered at the provider afterwards.  For
find, join and destroy these four effects are all the call adds to the log; for create
they follow whatever the destroy of an existing session added (nothing when no session
exists). -/
theorem rejected_call_unsubscribes_then_broadcasts (s : UMultiplayerSessionsSubsystem)
    (p : IOnlineSession) (hp : s.SessionInterface = some p) :
    (p.CreateSessionReturns = false → ∀ (C : Int) (M : String), ∃ pre h,
        (CreateSession C M s).Log = s.Log ++ pre ++
          [Effect.Subscribe OpKind.Create h,
           Effect.CallCreateSession (MakeSessionSettings p.SubsystemName C M),
           Effect.Unsubscribe OpKind.Create (some h),
           Effect.CreateSessionComplete false] ∧
        (p.NamedSession = false → pre = [] ∧ h = p.NextHandle) ∧
        (∀ p', (CreateSession C M s).SessionInterface = some p' →
          (OpKind.Create, h) ∉ p'.Delegates)) ∧
    (p.FindSessionsReturns = false → ∀ n : Int,
        (FindSessions n s).Log = s.Log ++
          [Effect.Subscribe OpKind.Find p.NextHandle,
           Effect.CallFindSessions (MakeSessionSearch p.SubsystemName n),
           Effect.Unsubscribe OpKind.Find (some p.NextHandle),
           Effect.FindSessionsComplete [] false] ∧
        (∀ p', (FindSessions n s).SessionInterface = some p' →
          (OpKind.Find, p.NextHandle) ∉ p'.Delegates)) ∧
    (p.JoinSessionReturns = false → ∀ r : FOnlineSessionSearchResult,
        (JoinSession r s).Log = s.Log ++
          [Effect.Subscribe OpKind.Join p.NextHandle,
           Effect.CallJoinSession r,
           Effect.Unsubscribe OpKind.Join (some p.NextHandle),
           Effect.JoinSessionComplete EOnJoinSessionCompleteResult.UnknownError] ∧
        (∀ p', (JoinSession r s).SessionInterface = some p' →
          (OpKind.Join, p.NextHandle) ∉ p'.Delegates)) ∧
    (p.DestroySessionReturns = false →
        (DestroySession s).Log = s.Log ++
          [Effect.Subscribe OpKind.Destroy p.NextHandle,
           Effect.CallDestroySession,
           Effect.Unsubscribe OpKind.Destroy (some p.NextHandle),
           Effect.DestroySessionComplete false] ∧
        (∀ p', (DestroySession s).SessionInterface = some p' →
          (OpKind.Destroy, p.NextHandle) ∉ p'.Delegates)) := by
  refine ⟨?_, ?_, ?_, ?_⟩
  · intro hr C M
    cases hn : p.NamedSession
    · refine ⟨[], p.NextHandle, ?_, ?_, ?_⟩
      · simp [CreateSession, AddOnCompleteDelegate_Handle,
          ClearOnCompleteDelegate_Handle, SetDelegateHandle, DelegateHandle, Emit,
          hp, hn, hr]
      · simp
      · intro p'
        simp [CreateSession, AddOnCompleteDelegate_Handle,
          ClearOnCompleteDelegate_Handle, SetDelegateHandle, DelegateHandle, Emit,
          hp, hn, hr]
        rintro rfl
        simp [List.mem_filter]
    · cases hd : p.DestroySessionReturns
      · refine ⟨[Effect.Subscribe OpKind.Destroy p.NextHandle, Effect.CallDestroySession,
          Effect.Unsubscribe OpKind.Destroy (some p.NextHandle),
          Effect.DestroySessionComplete false], p.NextHandle + 1, ?_, ?_, ?_⟩
        · simp [CreateSession, DestroySession, AddOnCompleteDelegate_Handle,
            ClearOnCompleteDelegate_Handle, SetDelegateHandle, DelegateHandle, Emit,
            hp, hn, hr, hd]
        · simp
        · intro p'
          simp [CreateSession, DestroySession, AddOnCompleteDelegate_Handle,
            ClearOnCompleteDelegate_Handle, SetDelegateHandle, DelegateHandle, Emit,
            hp, hn, hr, hd]
          rintro rfl
          simp [List.mem_filter]
      · refine ⟨[Effect.Subscribe OpKind.Destroy p.NextHandle, Effect.CallDestroySession],
          p.NextHandle + 1, ?_, ?_, ?_⟩
        · simp [CreateSession, DestroySession, AddOnCompleteDelegate_Handle,
            ClearOnCompleteDelegate_Handle, SetDelegateHandle, DelegateHandle, Emit,
            hp, hn, hr, hd]
        · simp
        · intro p'
          simp [CreateSession, DestroySession, AddOnCompleteDelegate_Handle,
            ClearOnCompleteDelegate_Handle, SetDelegateHandle, DelegateHandle, Emit,
            hp, hn, hr, hd]
          rintro rfl
          simp [List.mem_filter]
  · intro hr n
    refine ⟨?_, ?_⟩
    · simp [FindSessions, AddOnCompleteDelegate_Handle, ClearOnCompleteDelegate_Handle,
        SetDelegateHandle, DelegateHandle, Emit, hp, hr]
    · intro p'
      simp [FindSessions, AddOnCompleteDelegate_Handle, ClearOnCompleteDelegate_Handle,
        SetDelegateHandle, DelegateHandle, Emit, hp, hr]
      rintro rfl
      simp [List.mem_filter]
  · intro hr r
    refine ⟨?_, ?_⟩
    · simp [JoinSession, AddOnCompleteDelegate_Handle, ClearOnCompleteDelegate_Handle,
        SetDelegateHandle, DelegateHandle, Emit, hp, hr]
    · intro p'
      simp [JoinSession, AddOnCompleteDelegate_Handle, ClearOnCompleteDelegate_Handle,
        SetDelegateHandle, DelegateHandle, Emit, hp, hr]
      rintro rfl
      simp [List.mem_filter]
  · intro hr
    refine ⟨?_, ?_⟩
    · simp [DestroySession, AddOnCompleteDelegate_Handle, ClearOnCompleteDelegate_Handle,
        SetDelegateHandle, DelegateHandle, Emit, hp, hr]
    · intro p'
      simp [DestroySession, AddOnCompleteDelegate_Handle, ClearOnCompleteDelegate_Handle,
        SetDelegateHandle, DelegateHandle, Emit, hp, hr]
      rintro rfl
      simp [List.mem_filter]

/-- Witness of `rejected_call_unsubscribes_then_broadcasts`: a provider that rejects
every call, no session existing. -/
theorem rejected_call_unsubscribes_then_broadcasts_witness :
    (CreateSession 4 "Deathmatch" (Subsystem0 (some (ProviderRejecting false)))).Log =
        [Effect.Subscribe OpKind.Create 0,
         Effect.CallCreateSession (MakeSessionSettings "NULL" 4 "Deathmatch"),
         Effect.Unsubscribe OpKind.Create (some 0),
         Effect.CreateSessionComplete false] ∧
      (FindSessions 10 (Subsystem0 (some (ProviderRejecting false)))).Log =
        [Effect.Subscribe OpKind.Find 0,
         Effect.CallFindSessions (MakeSessionSearch "NULL" 10),
         Effect.Unsubscribe OpKind.Find (some 0),
         Effect.FindSessionsComplete [] false] ∧
      (JoinSession ⟨7, "Deathmatch"⟩ (Subsystem0 (some (ProviderRejecting false)))).Log =
        [Effect.Subscribe OpKind.Join 0,
         Effect.CallJoinSession ⟨7, "Deathmatch"⟩,
         Effect.Unsubscribe OpKind.Join (some 0),
         Effect.JoinSessionComplete EOnJoinSessionCompleteResult.UnknownError] ∧
      (DestroySession (Subsystem0 (some (ProviderRejecting false)))).Log =
        [Effect.Subscribe OpKind.Destroy 0,
         Effect.CallDestroySession,
         Effect.Unsubscribe OpKind.Destroy (some 0),
         Effect.DestroySessionComplete false] := by
  have h := rejected_call_unsubscribes_then_broadcasts
    (Subsystem0 (some (ProviderRejecting false))) (ProviderRejecting false) rfl
  refine ⟨?_, (h.2.1 rfl 10).1, (h.2.2.1 rfl ⟨7, "Deathmatch"⟩).1, (h.2.2.2 rfl).1⟩
  obtain ⟨pre, n, h1, h2, _⟩ := h.1 rfl 4 "Deathmatch"
  obtain ⟨rfl, rfl⟩ := h2 rfl
  exact h1

/-! ## Handle hygiene -/

/-- C8 (as stated, refuted): two `FindSessions` calls in a row, both accepted, leave
two find delegates registered at once; the completion that follows unsubscribes only
the stored (second) handle, so the first handle is never unsubscribed and stays
registered after the operation has completed. -/
theorem handle_hygiene_counterexample :
    (Run Always [Action.FindSessions 10, Action.FindSessions 10]
        (Subsystem0 (some (Provider0 false)))).map (Outstanding OpKind.Find) =
      some [0, 1] ∧
    (Run Always [Action.FindSessions 10, Action.FindSessions 10,
        Action.OnFindSessionsComplete true]
        (Subsystem0 (some (Provider0 false)))).map
          (fun s => (Outstanding OpKind.Find s, s.Log)) =
      some ([0],
        [Effect.Subscribe OpKind.Find 0,
         Effect.CallFindSessions (MakeSessionSearch "NULL" 10),
         Effect.Subscribe OpKind.Find 1,
         Effect.CallFindSessions (MakeSessionSearch "NULL" 10),
         Effect.Unsubscribe OpKind.Find (some 1),
         Effect.FindSessionsComplete [] false]) := by
  decide

/-- C8 (amended): start from any state with handle hygiene (such as the freshly
constructed subsystem) and take any run in which no operation is started while a
delegate of a kind it subscribes is still registered.  Then in the state `s'` reached:
at most one delegate per kind is registered, and it is the one whose handle is stored;
an operation started there while none of its kind is registered subscribes one handle
and either, rejected, unsubscribes that same handle before its failure broadcast and
leaves none registered, or, accepted, leaves exactly that handle registered and
stored; each completion handler first makes its guarded unsubscribe call, broadcasts
last and leaves no delegate of its kind registered (for destroy: when no create is
chained).  Outside such runs, in any state `t`: an accepted call subscribes a further
handle next to those registered and overwrites the stored one, every delegate
registered under an earlier handle is then leaked, and no run whatever releases a
leaked subscription.  (`CreateSession` is covered here when it finds no session.) -/
theorem handle_hygiene (acts : List Action) (s s' : UMultiplayerSessionsSubsystem)
    (h : HandleHygiene s = true) (hr : Run NoReentry acts s = some s') :
    (∀ k, (Outstanding k s').length ≤ 1 ∧
      ∀ n ∈ Outstanding k s', DelegateHandle k s' = some n) ∧
    (∀ p, s'.SessionInterface = some p →
      (p.NamedSession = false → Outstanding OpKind.Create s' = [] →
        ∀ (C : Int) (M : String),
          IdleLifecycle OpKind.Create p.CreateSessionReturns p.NextHandle
            (Effect.CallCreateSession (MakeSessionSettings p.SubsystemName C M))
            (Effect.CreateSessionComplete false) s' (CreateSession C M s')) ∧
      (Outstanding OpKind.Find s' = [] → ∀ n : Int,
        IdleLifecycle OpKind.Find p.FindSessionsReturns p.NextHandle
          (Effect.CallFindSessions (MakeSessionSearch p.SubsystemName n))
          (Effect.FindSessionsComplete [] false) s' (FindSessions n s')) ∧
      (Outstanding OpKind.Join s' = [] → ∀ r : FOnlineSessionSearchResult,
        IdleLifecycle OpKind.Join p.JoinSessionReturns p.NextHandle
          (Effect.CallJoinSession r)
          (Effect.JoinSessionComplete EOnJoinSessionCompleteResult.UnknownError)
          s' (JoinSession r s')) ∧
      (Outstanding OpKind.Destroy s' = [] →
        IdleLifecycle OpKind.Destroy p.DestroySessionReturns p.NextHandle
          Effect.CallDestroySession (Effect.DestroySessionComplete false)
          s' (DestroySession s'))) ∧
    (∀ (t : UMultiplayerSessionsSubsystem) (q : IOnlineSession),
      t.SessionInterface = some q →
      (q.NamedSession = false → q.CreateSessionReturns = true →
        ∀ (C : Int) (M : String),
          UnguardedCall OpKind.Create q.NextHandle t (CreateSession C M t)) ∧
      (q.FindSessionsReturns = true → ∀ n : Int,
        UnguardedCall OpKind.Find q.NextHandle t (FindSessions n t)) ∧
      (q.JoinSessionReturns = true → ∀ r : FOnlineSessionSearchResult,
        UnguardedCall OpKind.Join q.NextHandle t (JoinSession r t)) ∧
      (q.DestroySessionReturns = true →
        UnguardedCall OpKind.Destroy q.NextHandle t (DestroySession t))) ∧
    (∀ (k : OpKind) (n : Nat) (t t' : UMultiplayerSessionsSubsystem)
        (later : List Action),
      Leaked k n t → Run Always later t = some t' → Leaked k n t') ∧
    (∀ b, (OnCreateSessionComplete b s').Log =
        s'.Log ++ HandlerUnsubscribe OpKind.Create s' ++
          [Effect.CreateSessionComplete b] ∧
      Outstanding OpKind.Create (OnCreateSessionComplete b s') = []) ∧
    (∀ b t, OnFindSessionsComplete b s' = some t →
      (∃ rs f, t.Log = s'.Log ++ HandlerUnsubscribe OpKind.Find s' ++
          [Effect.FindSessionsComplete rs f]) ∧
      Outstanding OpKind.Find t = []) ∧
    (∀ c, (OnJoinSessionComplete c s').Log =
        s'.Log ++ HandlerUnsubscribe OpKind.Join s' ++
          [Effect.JoinSessionComplete c] ∧
      Outstanding OpKind.Join (OnJoinSessionComplete c s') = []) ∧
    (∀ b, ¬ (b = true ∧ s'.bCreateSessionOnDestroy = true) →
      (OnDestroySessionComplete b s').Log =
        s'.Log ++ HandlerUnsubscribe OpKind.Destroy s' ++
          [Effect.DestroySessionComplete b] ∧
      Outstanding OpKind.Destroy (OnDestroySessionComplete b s') = []) := by
  have hy := (HandleHygiene_iff s').1 (hygiene_Run acts s s' h hr)
  have hlog : ∀ k, (ClearOnCompleteDelegate_Handle k s').Log =
      s'.Log ++ HandlerUnsubscribe k s' := by
    intro k
    cases hp : s'.SessionInterface <;> cases k <;>
      simp [ClearOnCompleteDelegate_Handle, HandlerUnsubscribe, SetDelegateHandle, hp]
  refine ⟨?_, ?_, ?_, ?_, ?_, ?_, ?_, ?_⟩
  · intro k
    rcases (HygieneAt_iff k s').1 (hy k) with h1 | ⟨n, h1, h2⟩
    · simp [h1]
    · simp [h1, h2]
  · intro p hp
    exact ⟨fun hs h0 C M => lifecycle_CreateSession C M s' p hp hs h0,
      fun h0 n => lifecycle_FindSessions n s' p hp h0,
      fun h0 r => lifecycle_JoinSession r s' p hp h0,
      fun h0 => lifecycle_DestroySession s' p hp h0⟩
  · intro t q hq
    exact ⟨fun hs hr C M => unguarded_CreateSession C M t q hq hs hr,
      fun hr n => unguarded_FindSessions n t q hq hr,
      fun hr r => unguarded_JoinSession r t q hq hr,
      fun hr => unguarded_DestroySession t q hq hr⟩
  · intro k n t t' later hl hrun
    exact Leaked_Run later t t' hl hrun
  · intro b
    have hb : OnCreateSessionComplete b s' = Emit (Effect.CreateSessionComplete b)
        (ClearOnCompleteDelegate_Handle OpKind.Create s') := by
      rw [← AfterHandlerUnsubscribe_eq]
      rfl
    rw [hb]
    exact ⟨by simp [Emit, hlog], by
      rw [Outstanding_Emit]
      exact Outstanding_Clear_nil _ _ (hy _)⟩
  · intro b t ht
    have hb : OnFindSessionsComplete b s' =
        match (ClearOnCompleteDelegate_Handle OpKind.Find s').LastSessionSearch with
        | none => none
        | some search =>
          if search.SearchResults.length ≤ 0 then
            some (Emit (Effect.FindSessionsComplete [] false)
              (ClearOnCompleteDelegate_Handle OpKind.Find s'))
          else
            some (Emit (Effect.FindSessionsComplete search.SearchResults b)
              (ClearOnCompleteDelegate_Handle OpKind.Find s')) := by
      rw [← AfterHandlerUnsubscribe_eq]
      rfl
    rw [hb] at ht
    split at ht
    · exact absurd ht (by simp)
    · split at ht <;>
        (simp only [Option.some.injEq] at ht
         subst ht
         exact ⟨⟨_, _, congrArg (fun l => l ++ [Effect.FindSessionsComplete _ _])
           (hlog OpKind.Find)⟩, by
           rw [Outstanding_Emit]
           exact Outstanding_Clear_nil _ _ (hy _)⟩)
  · intro c
    have hb : OnJoinSessionComplete c s' = Emit (Effect.JoinSessionComplete c)
        (ClearOnCompleteDelegate_Handle OpKind.Join s') := by
      rw [← AfterHandlerUnsubscribe_eq]
      rfl
    rw [hb]
    exact ⟨by simp [Emit, hlog], by
      rw [Outstanding_Emit]
      exact Outstanding_Clear_nil _ _ (hy _)⟩
  · intro b hb'
    have hc : (b && s'.bCreateSessionOnDestroy) = false := by
      cases b <;> cases hl : s'.bCreateSessionOnDestroy <;> simp_all
    have hl : (AfterHandlerUnsubscribe OpKind.Destroy s').bCreateSessionOnDestroy =
        s'.bCreateSessionOnDestroy := by
      cases hp : s'.SessionInterface <;>
        simp [AfterHandlerUnsubscribe, ClearOnCompleteDelegate_Handle, SetDelegateHandle, hp]
    have hb : OnDestroySessionComplete b s' = Emit (Effect.DestroySessionComplete b)
        (ClearOnCompleteDelegate_Handle OpKind.Destroy s') := by
      rw [← AfterHandlerUnsubscribe_eq]
      simp only [OnDestroySessionComplete, AfterHandlerUnsubscribe] at hl ⊢
      simp [hl, hc]
    rw [hb]
    exact ⟨by simp [Emit, hlog], by
      rw [Outstanding_Emit]
      exact Outstanding_Clear_nil _ _ (hy _)⟩

/-- Witness of `handle_hygiene`: the destroy-then-recreate flow from the freshly
constructed subsystem.  `CreateSession(4, "Deathmatch")` finds a session (the provider
accepts the destroy and rejects a create while the session exists); the session goes
away; the destroy completes with `true` and chains the create, which is accepted and
then completes.  At the end nothing is registered, and a find started there and
rejected releases the handle it subscribed. -/
theorem handle_hygiene_witness :
    ∃ s', Run NoReentry
        [Action.CreateSession 4 "Deathmatch",
         Action.Provider false true false true true [],
         Action.OnDestroySessionComplete true,
         Action.OnCreateSessionComplete true]
        (Subsystem0 (some { Provider0 true with CreateSessionReturns := false })) =
          some s' ∧
      (∀ k, (Outstanding k s').length ≤ 1 ∧
        ∀ n ∈ Outstanding k s', DelegateHandle k s' = some n) ∧
      Outstanding OpKind.Find (FindSessions 10 s') = [] := by
  cases hrun : Run NoReentry
      [Action.CreateSession 4 "Deathmatch",
       Action.Provider false true false true true [],
       Action.OnDestroySessionComplete true,
       Action.OnCreateSessionComplete true]
      (Subsystem0 (some { Provider0 true with CreateSessionReturns := false })) with
  | none => exact absurd hrun (by decide)
  | some s' =>
    have hw := handle_hygiene _
      (Subsystem0 (some { Provider0 true with CreateSessionReturns := false })) s'
      (by decide) hrun
    refine ⟨s', rfl, hw.1, ?_⟩
    have hs : s' = Option.get (Run NoReentry
        [Action.CreateSession 4 "Deathmatch",
         Action.Provider false true false true true [],
         Action.OnDestroySessionComplete true,
         Action.OnCreateSessionComplete true]
        (Subsystem0 (some { Provider0 true with CreateSessionReturns := false })))
        (by decide) := by
      simp [hrun]
    have hp : s'.SessionInterface = some
        { Provider0 false with FindSessionsReturns := false, NextHandle := 3 } := by
      rw [hs]
      decide
    exact (((hw.2.1 _ hp).2.1 (by rw [hs]; decide) 10).1 rfl).1

/-! ## The pair used by the chained create -/

/-- C9 (as stated, refuted): `CreateSession(4, "Deathmatch")` finds a session and
latches; before the destroy completes, `CreateSession(8, "Capture")` is called and
finds the session too; the session then goes away and the destroy completes with
`true`.  The create chained by the handler carries the pair of the intervening call,
`(8, "Capture")`, not the original `(4, "Deathmatch")`. -/
theorem recreate_uses_latched_pair_counterexample :
    (Run Always
        [Action.CreateSession 4 "Deathmatch",
         Action.CreateSession 8 "Capture",
         Action.Provider false true true true true []]
        (Subsystem0 (some (Provider0 true)))).map
          (fun s => (OnDestroySessionComplete true s).Log.drop s.Log.length) =
      some
        [Effect.Unsubscribe OpKind.Destroy (some 2),
         Effect.Subscribe OpKind.Create 4,
         Effect.CallCreateSession (MakeSessionSettings "NULL" 8 "Capture"),
         Effect.DestroySessionComplete true] := by
  decide

/-- C9 (amended): when `CreateSession C M` finds a session, the destroy comes first in
what it does, and the pair `(C, M)` is latched.  As long as no later `CreateSession`
finds a session too (each one that does overwrites the saved pair with its own
arguments and latches again) and no destroy has completed with `true`, the latch and
the pair stay; the destroy-completion handler called with `true` then runs
`CreateSession C M`, and when no session exists any more the provider's create is
called with settings carrying `C` and `M`, before `DestroySessionComplete(true)`. -/
theorem recreate_uses_latched_pair (s : UMultiplayerSessionsSubsystem)
    (p : IOnlineSession) (C : Int) (M : String) (hp : s.SessionInterface = some p)
    (hn : p.NamedSession = true) :
    (∃ rest, (CreateSession C M s).Log = s.Log ++
        [Effect.Subscribe OpKind.Destroy p.NextHandle, Effect.CallDestroySession] ++
        rest) ∧
    (∀ acts s2, Run KeepsIntent acts (CreateSession C M s) = some s2 →
      s2.bCreateSessionOnDestroy = true ∧
      s2.LastNumPublicConnections = C ∧
      s2.LastMatchType = M ∧
      OnDestroySessionComplete true s2 =
        Emit (Effect.DestroySessionComplete true)
          (CreateSession C M (ResetIntent (AfterHandlerUnsubscribe OpKind.Destroy s2))) ∧
      (∀ p2, s2.SessionInterface = some p2 → p2.NamedSession = false → ∃ tail,
        (OnDestroySessionComplete true s2).Log = s2.Log ++
          [Effect.Unsubscribe OpKind.Destroy s2.DestroySessionCompleteDelegateHandle,
           Effect.Subscribe OpKind.Create p2.NextHandle,
           Effect.CallCreateSession (MakeSessionSettings p2.SubsystemName C M)] ++
          tail ++ [Effect.DestroySessionComplete true])) ∧
    (∀ (C' : Int) (M' : String) (t : UMultiplayerSessionsSubsystem) (q : IOnlineSession),
      t.SessionInterface = some q → q.NamedSession = true →
      (CreateSession C' M' t).bCreateSessionOnDestroy = true ∧
      (CreateSession C' M' t).LastNumPublicConnections = C' ∧
      (CreateSession C' M' t).LastMatchType = M') := by
  obtain ⟨h1, h2, h3, mid, tail, n, hlog⟩ :=
    create_with_existing_session_calls_create s p C M hp hn
  refine ⟨⟨_, by rw [hlog, List.append_assoc, List.append_assoc]⟩, ?_, ?_⟩
  · intro acts s2 hr
    obtain ⟨g1, g2, g3⟩ := intent_Run acts _ s2 hr
    rw [h1] at g1
    rw [h2] at g2
    rw [h3] at g3
    have hch := OnDestroySessionComplete_chain s2 g1
    rw [g2, g3] at hch
    refine ⟨g1, g2, g3, hch, ?_⟩
    intro p2 hp2 hn2
    cases hc : p2.CreateSessionReturns
    · refine ⟨[Effect.Unsubscribe OpKind.Create (some p2.NextHandle),
        Effect.CreateSessionComplete false], ?_⟩
      simp [OnDestroySessionComplete, ResetIntent, CreateSession,
        AddOnCompleteDelegate_Handle, ClearOnCompleteDelegate_Handle, SetDelegateHandle,
        DelegateHandle, Emit, hp2, hn2, hc, g1, g2, g3]
    · refine ⟨[], ?_⟩
      simp [OnDestroySessionComplete, ResetIntent, CreateSession,
        AddOnCompleteDelegate_Handle, ClearOnCompleteDelegate_Handle, SetDelegateHandle,
        DelegateHandle, Emit, hp2, hn2, hc, g1, g2, g3]
  · intro C' M' t q hq hqn
    obtain ⟨k1, k2, k3, _⟩ := create_with_existing_session_calls_create t q C' M' hq hqn
    exact ⟨k1, k2, k3⟩

/-- Witness of `recreate_uses_latched_pair`: `CreateSession(4, "Deathmatch")` with a
session existing, then a find, then the session goes away, then the destroy completes
with `true`: the provider's create is called with `(4, "Deathmatch")`. -/
theorem recreate_uses_latched_pair_witness :
    ∃ s2, Run KeepsIntent
        [Action.FindSessions 10, Action.Provider false true true true true []]
        (CreateSession 4 "Deathmatch" (Subsystem0 (some (Provider0 true)))) = some s2 ∧
      s2.bCreateSessionOnDestroy = true ∧
      s2.LastNumPublicConnections = 4 ∧
      s2.LastMatchType = "Deathmatch" ∧
      OnDestroySessionComplete true s2 =
        Emit (Effect.DestroySessionComplete true)
          (CreateSession 4 "Deathmatch"
            (ResetIntent (AfterHandlerUnsubscribe OpKind.Destroy s2))) := by
  cases hrun : Run KeepsIntent
      [Action.FindSessions 10, Action.Provider false true true true true []]
      (CreateSession 4 "Deathmatch" (Subsystem0 (some (Provider0 true)))) with
  | none => exact absurd hrun (by decide)
  | some s2 =>
    obtain ⟨h1, h2, h3, h4, _⟩ :=
      (recreate_uses_latched_pair (Subsystem0 (some (Provider0 true))) (Provider0 true)
        4 "Deathmatch" rfl rfl).2.1 _ s2 hrun
    exact ⟨s2, rfl, h1, h2, h3, h4⟩

/-! ## A failed destroy keeps the intent -/

/-- C10: in every state with the Deferred Recreate Intent latched, a failed destroy
leaves the latch set and the saved pair unchanged, starts no create (no create handle
stored, no settings built, no create effect logged) and broadcasts
`DestroySessionComplete(false)`: both for the completion handler called with `false`
and for `DestroySession` when the provider rejects the call synchronously. -/
theorem failed_destroy_keeps_intent (s : UMultiplayerSessionsSubsystem)
    (hl : s.bCreateSessionOnDestroy = true) :
    ((OnDestroySessionComplete false s).bCreateSessionOnDestroy = true ∧
      (OnDestroySessionComplete false s).LastNumPublicConnections =
        s.LastNumPublicConnections ∧
      (OnDestroySessionComplete false s).LastMatchType = s.LastMatchType ∧
      (OnDestroySessionComplete false s).CreateSessionCompleteDelegateHandle =
        s.CreateSessionCompleteDelegateHandle ∧
      (OnDestroySessionComplete false s).LastSessionSettings = s.LastSessionSettings ∧
      (OnDestroySessionComplete false s).Log =
        s.Log ++ HandlerUnsubscribe OpKind.Destroy s ++
          [Effect.DestroySessionComplete false]) ∧
    (∀ p, s.SessionInterface = some p → p.DestroySessionReturns = false →
      (DestroySession s).bCreateSessionOnDestroy = true ∧
      (DestroySession s).LastNumPublicConnections = s.LastNumPublicConnections ∧
      (DestroySession s).LastMatchType = s.LastMatchType ∧
      (DestroySession s).CreateSessionCompleteDelegateHandle =
        s.CreateSessionCompleteDelegateHandle ∧
      (DestroySession s).LastSessionSettings = s.LastSessionSettings ∧
      (DestroySession s).Log = s.Log ++
        [Effect.Subscribe OpKind.Destroy p.NextHandle,
         Effect.CallDestroySession,
         Effect.Unsubscribe OpKind.Destroy (some p.NextHandle),
         Effect.DestroySessionComplete false]) := by
  constructor
  · cases hp : s.SessionInterface <;>
      simp [OnDestroySessionComplete, ClearOnCompleteDelegate_Handle, SetDelegateHandle,
        DelegateHandle, Emit, HandlerUnsubscribe, hp, hl]
  · intro p hp hr
    simp [DestroySession, AddOnCompleteDelegate_Handle, ClearOnCompleteDelegate_Handle,
      SetDelegateHandle, DelegateHandle, Emit, hp, hr, hl]

/-- Witness of `failed_destroy_keeps_intent` on `LatchedRejecting`. -/
theorem failed_destroy_keeps_intent_witness :
    LatchedRejecting.bCreateSessionOnDestroy = true ∧
      (OnDestroySessionComplete false LatchedRejecting).bCreateSessionOnDestroy = true ∧
      (OnDestroySessionComplete false LatchedRejecting).Log =
        [Effect.Unsubscribe OpKind.Destroy (some 0),
         Effect.DestroySessionComplete false] ∧
      (DestroySession LatchedRejecting).bCreateSessionOnDestroy = true ∧
      (DestroySession LatchedRejecting).Log =
        [Effect.Subscribe OpKind.Destroy 1,
         Effect.CallDestroySession,
         Effect.Unsubscribe OpKind.Destroy (some 1),
         Effect.DestroySessionComplete false] := by
  have h := failed_destroy_keeps_intent LatchedRejecting rfl
  have h2 := h.2 _ rfl rfl
  exact ⟨rfl, h.1.1, h.1.2.2.2.2.2, h2.1, h2.2.2.2.2.2⟩

end MultiplayerSessions
